import Mathlib

/-!
Verification development for the classroom backend (express + drizzle/postgres).

The routes in src/routes/users.ts (users and subjects routers) and
src/routes/classes.ts are shallowly embedded below.  Database tables are
lists of rows; the drizzle query builder calls are translated to list
combinators with SQL semantics:

  * a LEFT JOIN produces, for each left row, either one row per matching
    right row or a single row with a NULL (none) right side;
  * a WHERE comparison involving a NULL column is not satisfied;
  * GROUP BY over every selected column collapses the selection to its
    distinct tuples (List.dedup);
  * ORDER BY col DESC sorts by the key descending (stable mergeSort);
  * OFFSET and LIMIT window the ordered rows (drop and take);
  * count(asterisk) is the length of the filtered joined rows, while
    count(distinct col) is the number of distinct values of col in them.

JavaScript glue that the handlers use is modelled exactly where the claims
depend on it: string-to-number coercion (unary plus and Number) is a
parser into a four-way result (an exact finite rational, NaN, or either
infinity); Math.max(1, x) maps NaN to NaN, positive infinity to itself,
and negative infinity to the finite 1, as the real Math.max does.  The
routes that validate ids only test Number.isFinite, so they consume the
coercion through its finite part.  Pagination values that are not natural numbers leave
the fragment whose database behaviour the source determines (the SQL
window is only defined for natural offsets and limits), so the route
models return Option responses and give none in that case; every claim is
settled on the some side.
-/

namespace Classroom

/-- JavaScript whitespace accepted by Number coercion (modelled fragment:
space, tab, newline, carriage return, form feed, vertical tab). -/
def isJsWs (c : Char) : Bool :=
  c == ' ' || c == '\t' || c == '\n' || c == '\r' || c == '\x0c' || c == '\x0b'

/-- Trim JavaScript whitespace from both ends of a character list. -/
def trimJs (cs : List Char) : List Char :=
  ((cs.dropWhile isJsWs).reverse.dropWhile isJsWs).reverse

/-- Numeric value of a decimal digit list, most significant first. -/
def digitsToNat (ds : List Char) : ℕ :=
  ds.foldl (fun a c => a * 10 + (c.toNat - 48)) 0

/-- Value of one digit in a given radix (hex, octal, binary literals). -/
def radixDigitVal (radix : ℕ) (c : Char) : Option ℕ :=
  let v : ℕ :=
    if c.isDigit then c.toNat - 48
    else if 'a' ≤ c && c ≤ 'z' then c.toNat - 87
    else if 'A' ≤ c && c ≤ 'Z' then c.toNat - 55
    else 99
  if v < radix then some v else none

/-- Fold a non-decimal integer literal body; none on an invalid digit. -/
def radixDigitsVal (radix : ℕ) (ds : List Char) : Option ℕ :=
  ds.foldl (fun acc c =>
    match acc, radixDigitVal radix c with
    | some a, some v => some (a * radix + v)
    | _, _ => none) (some 0)

/-- Exponent suffix of a decimal literal: empty, or e / E with an optional
sign and a nonempty digit run consuming the rest of the input.  A positive
exponent multiplies by ten to the exponent, a negative one divides. -/
def parseExpPart (base : ℚ) : List Char → Option ℚ
  | [] => some base
  | c :: r =>
    if c == 'e' || c == 'E' then
      let sr : Bool × List Char :=
        match r with
        | '+' :: t => (false, t)
        | '-' :: t => (true, t)
        | t => (false, t)
      let ds := sr.2.takeWhile Char.isDigit
      let rest := sr.2.dropWhile Char.isDigit
      if ds.isEmpty || !rest.isEmpty then none
      else if sr.1 then some (base / ((10 ^ digitsToNat ds : ℕ) : ℚ))
      else some (base * ((10 ^ digitsToNat ds : ℕ) : ℚ))
    else none

/-- Unsigned decimal literal: digits, optional point and fraction digits,
optional exponent; at least one digit overall, all input consumed. -/
def parseUnsignedDec (cs : List Char) : Option ℚ :=
  let ip := cs.takeWhile Char.isDigit
  let rest := cs.dropWhile Char.isDigit
  match rest with
  | [] => if ip.isEmpty then none else some (digitsToNat ip)
  | '.' :: rest2 =>
    let fp := rest2.takeWhile Char.isDigit
    let rest3 := rest2.dropWhile Char.isDigit
    if ip.isEmpty && fp.isEmpty then none
    else parseExpPart
      ((digitsToNat ip : ℚ) + (digitsToNat fp : ℚ) / ((10 ^ fp.length : ℕ) : ℚ)) rest3
  | _ => if ip.isEmpty then none else parseExpPart (digitsToNat ip) rest

/-- Unsigned numeric literal, covering the non-decimal 0x / 0o / 0b forms
(which the grammar only allows unsigned). -/
def parseUnsignedNum (cs : List Char) : Option ℚ :=
  match cs with
  | '0' :: c :: r =>
    if c == 'x' || c == 'X' then if r.isEmpty then none else (radixDigitsVal 16 r).map (fun n => (n : ℚ))
    else if c == 'o' || c == 'O' then if r.isEmpty then none else (radixDigitsVal 8 r).map (fun n => (n : ℚ))
    else if c == 'b' || c == 'B' then if r.isEmpty then none else (radixDigitsVal 2 r).map (fun n => (n : ℚ))
    else parseUnsignedDec cs
  | _ => parseUnsignedDec cs

/-- A JavaScript number as far as these handlers observe it: an exact
finite rational, NaN, or either infinity. -/
inductive JsNum where
  | nan
  | posInf
  | negInf
  | fin (q : ℚ)
deriving DecidableEq, Repr

/-- The double overflow bound 2 ^ 1024, written as an iterated power so
that it evaluates as a literal. -/
def jsOverflowBound : ℕ := (2 ^ 256) ^ 4

/-- Whether a decimal value overflows the double range: absolute values
of at least 2 ^ 1024 become an infinity under JavaScript Number coercion
(the comparison 2 ^ 1024 less-or-equal abs q is phrased on the numerator
and denominator so that it evaluates over naturals). -/
def jsOverflow (q : ℚ) : Bool :=
  jsOverflowBound * q.den ≤ q.num.natAbs

/-- Attach the sign to a parsed magnitude and apply the overflow rule:
an overflowing magnitude becomes the signed infinity. -/
def finOrInf (neg : Bool) (q : ℚ) : JsNum :=
  if jsOverflow q then (if neg then .negInf else .posInf)
  else .fin (if neg then -q else q)

/-- The characters of the Infinity literal. -/
def infinityChars : List Char := ['I', 'n', 'f', 'i', 'n', 'i', 't', 'y']

/-- The body of a signed numeric literal: the Infinity literal or an
unsigned decimal literal (the non-decimal radix forms admit no sign). -/
def parseSignedTail (neg : Bool) (r : List Char) : JsNum :=
  if r = infinityChars then (if neg then .negInf else .posInf)
  else
    match parseUnsignedDec r with
    | none => .nan
    | some q => finOrInf neg q

/-- JavaScript string-to-number coercion (unary plus, Number), with the
full non-finite classification: NaN for unparsable input, the signed
infinities for the Infinity literals and overflowing literals, and the
exact rational value otherwise.  The modelled fragment covers trimmed
optionally signed decimal literals with exponents and the unsigned radix
literals; the exact double rounding of the resulting value is not
modelled (values are kept as rationals). -/
def jsToNumberFull (s : String) : JsNum :=
  match trimJs s.toList with
  | [] => .fin 0
  | '+' :: r => parseSignedTail false r
  | '-' :: r => parseSignedTail true r
  | cs =>
    if cs = infinityChars then .posInf
    else
      match parseUnsignedNum cs with
      | none => .nan
      | some q => finOrInf false q

/-- The finite part of the coercion, what the Number.isFinite guards of
the id routes observe: none for any non-finite result (NaN or either
infinity). -/
def jsToNumber (s : String) : Option ℚ :=
  match jsToNumberFull s with
  | .fin q => some q
  | _ => none

/-- Math.max(1, x) on a JavaScript number: NaN propagates, positive
infinity stays, negative infinity is dominated by the finite 1, and a
finite value becomes max(1, value). -/
def jsMax1 : JsNum → JsNum
  | .nan => .nan
  | .posInf => .posInf
  | .negInf => .fin 1
  | .fin q => .fin (max 1 q)

/-- A rational that is a natural number, as such. -/
def ratToNat (q : ℚ) : Option ℕ :=
  if q.den = 1 && decide (0 ≤ q.num) then some q.num.toNat else none

/-- Base-36 digit character (0-9 then a-z), as produced by toString(36). -/
def digitChar36 (d : ℕ) : Char :=
  if d < 10 then Char.ofNat (48 + d) else Char.ofNat (87 + d)

/-- Base-36 digits of the fraction k / 2 ^ 53, exact expansion (it always
terminates within 27 digits, the fuel), with no trailing zero emitted. -/
def frac36Digits : ℕ → ℕ → List ℕ
  | 0, _ => []
  | fuel + 1, n =>
    if n = 0 then [] else (n * 36) / 2 ^ 53 :: frac36Digits fuel ((n * 36) % 2 ^ 53)

/-- Math.random().toString(36) where the random double is k / 2 ^ 53:
the string 0 for zero, otherwise 0. followed by the base-36 digits of the
fraction.  (An engine may cut the expansion a little earlier than the
exact one; the claims settled against this model only use the zero case,
which the language standard fixes, and the length bound of the substring,
which holds for any digit production.) -/
def jsRandToString36 (k : ℕ) : String :=
  if k = 0 then "0"
  else String.mk ('0' :: '.' :: (frac36Digits 27 k).map digitChar36)

/-- String.prototype.substring with both indices (clamping as in JS for
the in-range uses the source makes). -/
def jsSubstring (s : String) (a b : ℕ) : String :=
  String.mk ((s.toList.drop a).take (b - a))

/-- The invite code POST /classes stores for random numerator k:
Math.random().toString(36).substring(2, 9). -/
def inviteCodeOf (k : ℕ) : String :=
  jsSubstring (jsRandToString36 k) 2 9

/-- Case-insensitive containment, the meaning of ilike with the pattern
percent-search-percent on a non-null column. -/
def containsCI (hay needle : String) : Bool :=
  let h := hay.toList.map Char.toLower
  let n := needle.toList.map Char.toLower
  (List.range (h.length + 1)).any (fun i => n.isPrefixOf (h.drop i))

/-- A WHERE test on a LEFT-JOINed column: a NULL row never satisfies it. -/
def optTest (p : β → Bool) : Option β → Bool
  | none => false
  | some b => p b

/-- SQL LEFT JOIN: each left row paired with every matching right row, or
with none when no right row matches. -/
def leftJoin (l : List α) (r : List β) (j : α → β → Bool) : List (α × Option β) :=
  l.flatMap fun a =>
    let ms := r.filter (fun b => j a b)
    if ms.isEmpty then [(a, none)] else ms.map (fun b => (a, some b))

/-- count(distinct col): the number of distinct values in the column. -/
def countDistinct [DecidableEq κ] (l : List κ) : ℕ :=
  l.dedup.length

/-- Insertion step of the ORDER BY sort: place a before the first
element whose key is not larger. -/
def insertDesc (key : α → ℕ) (a : α) : List α → List α
  | [] => [a]
  | b :: t => if key b ≤ key a then a :: b :: t else b :: insertDesc key a t

/-- ORDER BY key DESC (insertion sort; the engine order among equal keys
is unspecified, and no claim depends on it). -/
def sortByCreatedDesc (key : α → ℕ) : List α → List α
  | [] => []
  | a :: t => insertDesc key a (sortByCreatedDesc key t)

/-- OFFSET o LIMIT n over the ordered rows. -/
def window (o n : ℕ) (l : List α) : List α :=
  (l.drop o).take n

/-- Math.ceil(total / limit) on the natural pagination values. -/
def ceilNat (t l : ℕ) : ℕ :=
  (t + l - 1) / l

/-! ## Data model (src/db/schema, as used by the routes) -/

/-- A row of the user table (the columns baseSelect lists). -/
structure User where
  id : String
  name : String
  email : String
  emailVerified : Bool
  image : Option String
  role : String
  imageCldPubId : Option String
  createdAt : ℕ
  updatedAt : ℕ
deriving DecidableEq, Repr

/-- A row of the departments table. -/
structure Department where
  id : ℕ
  code : String
  name : String
  description : Option String
  createdAt : ℕ
  updatedAt : ℕ
deriving DecidableEq, Repr

/-- A row of the subjects table. -/
structure Subject where
  id : ℕ
  departmentId : ℕ
  code : String
  name : String
  description : Option String
  createdAt : ℕ
  updatedAt : ℕ
deriving DecidableEq, Repr

/-- A row of the classes table. -/
structure Class where
  id : ℕ
  subjectId : ℕ
  teacherId : String
  inviteCode : String
  name : String
  capacity : ℕ
  description : Option String
  status : String
  bannerUrl : Option String
  bannerCldPubId : Option String
  schedules : List String
  createdAt : ℕ
  updatedAt : ℕ
deriving DecidableEq, Repr

/-- A row of the enrollments table (the columns the routes use). -/
structure Enrollment where
  studentId : String
  classId : ℕ
deriving DecidableEq, Repr

/-- The database: one list per table, plus the next identity values the
insert-returning operations assign. -/
structure DB where
  users : List User
  departments : List Department
  subjects : List Subject
  classes : List Class
  enrollments : List Enrollment
  nextSubjectId : ℕ
  nextClassId : ℕ
deriving DecidableEq, Repr

/-! ## Response envelopes -/

/-- The pagination envelope of every list response. -/
structure Pagination where
  page : ℕ
  limit : ℕ
  total : ℕ
  totalPages : ℕ
deriving DecidableEq, Repr

/-- A list endpoint response: 200 with data and pagination, or an error
status with an error message body. -/
inductive ListResp (α : Type) where
  | ok (data : List α) (pagination : Pagination)
  | err (status : ℕ) (msg : String)
deriving DecidableEq, Repr

/-- A detail endpoint response: 200 with one record, or an error. -/
inductive DetailResp (α : Type) where
  | ok (data : α)
  | err (status : ℕ) (msg : String)
deriving DecidableEq, Repr

/-- A create endpoint response: 201 with the new id, or an error. -/
inductive CreateResp where
  | created (id : ℕ)
  | err (status : ℕ) (msg : String)
deriving DecidableEq, Repr

/-- The pagination object every non-empty-branch list response builds. -/
def paginationOf (cp lp total : ℕ) : Pagination :=
  ⟨cp, lp, total, ceilNat total lp⟩

/-- The effective value of a pagination query parameter: the default when
absent, otherwise its number coercion, clamped by Math.max(1, x).  This is
the line currentPage = Math.max(1, +page) (default 1) and the line
limitPerPage = Math.max(1, +limit) (default 10). -/
def effectiveNum (dflt : ℚ) (q : Option String) : JsNum :=
  jsMax1 (match q with | none => .fin dflt | some s => jsToNumberFull s)

/-- Resolution of the page and limit query values: none when either
effective value is not a natural number (NaN, positive infinity, or a
non-integer rational), the boundary of the modelled database fragment.
A negative-infinity coercion is already the finite 1 after Math.max. -/
def resolvePageLimit (pageQ limitQ : Option String) : Option (ℕ × ℕ) :=
  match effectiveNum 1 pageQ, effectiveNum 10 limitQ with
  | .fin p, .fin l =>
    match ratToNat p, ratToNat l with
    | some cp, some lp => some (cp, lp)
    | _, _ => none
  | _, _ => none

/-- JavaScript truthiness of an optional query string (only the empty
string and an absent value are falsy here). -/
def truthy : Option String → Bool
  | none => false
  | some s => !(s == "")

/-! ## Join chains of the nested role-dependent listings

Each listing issues a count query and a data query over the same join
chain and WHERE predicate; the shared chain is defined once per branch.
-/

/-- GET /users/:id/departments, teacher branch: departments LEFT JOIN
subjects ON subjects.departmentId = departments.id LEFT JOIN classes ON
classes.subjectId = subjects.id WHERE classes.teacherId = userId. -/
def userDeptTeacherRows (db : DB) (uid : String) :
    List ((Department × Option Subject) × Option Class) :=
  (leftJoin
    (leftJoin db.departments db.subjects (fun d s => s.departmentId == d.id))
    db.classes (fun x c => optTest (fun s => c.subjectId == s.id) x.2)).filter
    (fun x => optTest (fun c => c.teacherId == uid) x.2)

/-- GET /users/:id/departments, student branch: the teacher chain with a
further LEFT JOIN enrollments ON enrollments.classId = classes.id and
WHERE enrollments.studentId = userId. -/
def userDeptStudentRows (db : DB) (uid : String) :
    List (((Department × Option Subject) × Option Class) × Option Enrollment) :=
  (leftJoin
    (leftJoin
      (leftJoin db.departments db.subjects (fun d s => s.departmentId == d.id))
      db.classes (fun x c => optTest (fun s => c.subjectId == s.id) x.2))
    db.enrollments (fun x e => optTest (fun c => e.classId == c.id) x.2)).filter
    (fun x => optTest (fun e => e.studentId == uid) x.2)

/-- count(distinct departments.id) of the teacher departments chain. -/
def userDeptTeacherCount (db : DB) (uid : String) : ℕ :=
  countDistinct ((userDeptTeacherRows db uid).map (fun x => x.1.1.id))

/-- count(distinct departments.id) of the student departments chain. -/
def userDeptStudentCount (db : DB) (uid : String) : ℕ :=
  countDistinct ((userDeptStudentRows db uid).map (fun x => x.1.1.1.id))

/-- Data query of the teacher departments branch: the department columns,
grouped by all of them. -/
def userDeptTeacherData (db : DB) (uid : String) : List Department :=
  ((userDeptTeacherRows db uid).map (fun x => x.1.1)).dedup

/-- Data query of the student departments branch. -/
def userDeptStudentData (db : DB) (uid : String) : List Department :=
  ((userDeptStudentRows db uid).map (fun x => x.1.1.1)).dedup

/-- GET /users/:id/subjects, teacher branch count chain: subjects LEFT
JOIN classes ON classes.subjectId = subjects.id WHERE classes.teacherId =
userId (the count query does not join departments). -/
def userSubjTeacherCountRows (db : DB) (uid : String) :
    List (Subject × Option Class) :=
  (leftJoin db.subjects db.classes (fun s c => c.subjectId == s.id)).filter
    (fun x => optTest (fun c => c.teacherId == uid) x.2)

/-- GET /users/:id/subjects, student branch count chain: further LEFT
JOIN enrollments, WHERE enrollments.studentId = userId. -/
def userSubjStudentCountRows (db : DB) (uid : String) :
    List ((Subject × Option Class) × Option Enrollment) :=
  (leftJoin
    (leftJoin db.subjects db.classes (fun s c => c.subjectId == s.id))
    db.enrollments (fun x e => optTest (fun c => e.classId == c.id) x.2)).filter
    (fun x => optTest (fun e => e.studentId == uid) x.2)

/-- count(distinct subjects.id) of the teacher subjects chain. -/
def userSubjTeacherCount (db : DB) (uid : String) : ℕ :=
  countDistinct ((userSubjTeacherCountRows db uid).map (fun x => x.1.id))

/-- count(distinct subjects.id) of the student subjects chain. -/
def userSubjStudentCount (db : DB) (uid : String) : ℕ :=
  countDistinct ((userSubjStudentCountRows db uid).map (fun x => x.1.1.id))

/-- GET /users/:id/subjects, teacher branch data chain: subjects LEFT
JOIN departments ON subjects.departmentId = departments.id (the eager
parent) LEFT JOIN classes ON classes.subjectId = subjects.id WHERE
classes.teacherId = userId. -/
def userSubjTeacherDataRows (db : DB) (uid : String) :
    List ((Subject × Option Department) × Option Class) :=
  (leftJoin
    (leftJoin db.subjects db.departments (fun s d => s.departmentId == d.id))
    db.classes (fun x c => c.subjectId == x.1.id)).filter
    (fun x => optTest (fun c => c.teacherId == uid) x.2)

/-- GET /users/:id/subjects, student branch data chain. -/
def userSubjStudentDataRows (db : DB) (uid : String) :
    List (((Subject × Option Department) × Option Class) × Option Enrollment) :=
  (leftJoin
    (leftJoin
      (leftJoin db.subjects db.departments (fun s d => s.departmentId == d.id))
      db.classes (fun x c => c.subjectId == x.1.id))
    db.enrollments (fun x e => optTest (fun c => e.classId == c.id) x.2)).filter
    (fun x => optTest (fun e => e.studentId == uid) x.2)

/-- Teacher subjects data query result before ordering: the subject and
eager department columns, grouped by all of them. -/
def userSubjTeacherGrouped (db : DB) (uid : String) :
    List (Subject × Option Department) :=
  ((userSubjTeacherDataRows db uid).map (fun x => x.1)).dedup

/-- Student subjects data query result before ordering. -/
def userSubjStudentGrouped (db : DB) (uid : String) :
    List (Subject × Option Department) :=
  ((userSubjStudentDataRows db uid).map (fun x => x.1.1)).dedup

/-- GET /subjects/:id/users, teacher branch: user LEFT JOIN classes ON
user.id = classes.teacherId WHERE user.role = role AND classes.subjectId
= subjectId. -/
def subjectUsersTeacherRows (db : DB) (role : String) (sid : ℚ) :
    List (User × Option Class) :=
  (leftJoin db.users db.classes (fun u c => u.id == c.teacherId)).filter
    (fun x => x.1.role == role && optTest (fun c => decide ((c.subjectId : ℚ) = sid)) x.2)

/-- GET /subjects/:id/users, student branch: user LEFT JOIN enrollments
ON user.id = enrollments.studentId LEFT JOIN classes ON
enrollments.classId = classes.id WHERE user.role = role AND
classes.subjectId = subjectId. -/
def subjectUsersStudentRows (db : DB) (role : String) (sid : ℚ) :
    List ((User × Option Enrollment) × Option Class) :=
  (leftJoin
    (leftJoin db.users db.enrollments (fun u e => u.id == e.studentId))
    db.classes (fun x c => optTest (fun e => e.classId == c.id) x.2)).filter
    (fun x => x.1.1.role == role && optTest (fun c => decide ((c.subjectId : ℚ) = sid)) x.2)

/-- count(distinct user.id) of the subject-users teacher chain. -/
def subjectUsersTeacherCount (db : DB) (role : String) (sid : ℚ) : ℕ :=
  countDistinct ((subjectUsersTeacherRows db role sid).map (fun x => x.1.id))

/-- count(distinct user.id) of the subject-users student chain. -/
def subjectUsersStudentCount (db : DB) (role : String) (sid : ℚ) : ℕ :=
  countDistinct ((subjectUsersStudentRows db role sid).map (fun x => x.1.1.id))

/-- Subject-users teacher data query before ordering: the baseSelect user
columns grouped by all of them. -/
def subjectUsersTeacherData (db : DB) (role : String) (sid : ℚ) : List User :=
  ((subjectUsersTeacherRows db role sid).map (fun x => x.1)).dedup

/-- Subject-users student data query before ordering. -/
def subjectUsersStudentData (db : DB) (role : String) (sid : ℚ) : List User :=
  ((subjectUsersStudentRows db role sid).map (fun x => x.1.1)).dedup

/-- GET /classes/:id/users, teacher branch: user LEFT JOIN classes ON
user.id = classes.teacherId WHERE user.role = role AND classes.id =
classId. -/
def classUsersTeacherRows (db : DB) (role : String) (cid : ℚ) :
    List (User × Option Class) :=
  (leftJoin db.users db.classes (fun u c => u.id == c.teacherId)).filter
    (fun x => x.1.role == role && optTest (fun c => decide ((c.id : ℚ) = cid)) x.2)

/-- GET /classes/:id/users, student branch: user LEFT JOIN enrollments ON
user.id = enrollments.studentId WHERE user.role = role AND
enrollments.classId = classId. -/
def classUsersStudentRows (db : DB) (role : String) (cid : ℚ) :
    List (User × Option Enrollment) :=
  (leftJoin db.users db.enrollments (fun u e => u.id == e.studentId)).filter
    (fun x => x.1.role == role && optTest (fun e => decide ((e.classId : ℚ) = cid)) x.2)

/-- count(distinct user.id) of the class-users teacher chain. -/
def classUsersTeacherCount (db : DB) (role : String) (cid : ℚ) : ℕ :=
  countDistinct ((classUsersTeacherRows db role cid).map (fun x => x.1.id))

/-- count(distinct user.id) of the class-users student chain. -/
def classUsersStudentCount (db : DB) (role : String) (cid : ℚ) : ℕ :=
  countDistinct ((classUsersStudentRows db role cid).map (fun x => x.1.id))

/-- Class-users teacher data query before ordering. -/
def classUsersTeacherData (db : DB) (role : String) (cid : ℚ) : List User :=
  ((classUsersTeacherRows db role cid).map (fun x => x.1)).dedup

/-- Class-users student data query before ordering. -/
def classUsersStudentData (db : DB) (role : String) (cid : ℚ) : List User :=
  ((classUsersStudentRows db role cid).map (fun x => x.1)).dedup

/-! ## Route handlers

Each handler takes the database and the request parameters (path
parameters as strings, query parameters as optional strings) and returns
the response.  Handlers of paginated routes return an Option response:
none marks the model boundary where the resolved page or limit is not a
natural number (see resolvePageLimit); none of the claims concerns that
region.
-/

/-- GET /users: optional search (name or email, case-insensitive
substring) and role (exact) filters, paginated, newest first. -/
def getUsers (db : DB) (search roleQ pageQ limitQ : Option String) :
    Option (ListResp User) :=
  match resolvePageLimit pageQ limitQ with
  | none => none
  | some (cp, lp) =>
    let conds : List (User → Bool) :=
      (if truthy search then
        [fun u => containsCI u.name (search.getD "") || containsCI u.email (search.getD "")]
       else []) ++
      (if truthy roleQ then [fun u => u.role == roleQ.getD ""] else [])
    let matched := db.users.filter (fun u => conds.all (fun c => c u))
    some (.ok
      (window ((cp - 1) * lp) lp (sortByCreatedDesc User.createdAt matched))
      (paginationOf cp lp matched.length))

/-- GET /users/:id: the id string is used directly in the lookup (no
numeric validation); 404 when no user row matches. -/
def getUserById (db : DB) (userId : String) : DetailResp User :=
  match db.users.find? (fun u => u.id == userId) with
  | none => .err 404 "User not found"
  | some u => .ok u

/-- GET /users/:id/departments: 404 when the user does not exist; a
stored role that is neither teacher nor student short-circuits to an
empty page with limit 0; otherwise the role-dependent chain is counted
and windowed. -/
def getUserDepartments (db : DB) (userId : String) (pageQ limitQ : Option String) :
    Option (ListResp Department) :=
  match db.users.find? (fun u => u.id == userId) with
  | none => some (.err 404 "User not found")
  | some u =>
    if !(u.role == "teacher") && !(u.role == "student") then
      some (.ok [] ⟨1, 0, 0, 0⟩)
    else
      match resolvePageLimit pageQ limitQ with
      | none => none
      | some (cp, lp) =>
        let totalCount :=
          if u.role == "teacher" then userDeptTeacherCount db userId
          else userDeptStudentCount db userId
        let grouped :=
          if u.role == "teacher" then userDeptTeacherData db userId
          else userDeptStudentData db userId
        some (.ok
          (window ((cp - 1) * lp) lp (sortByCreatedDesc Department.createdAt grouped))
          (paginationOf cp lp totalCount))

/-- GET /users/:id/subjects: like the departments listing, with the
subject rows carrying their eager-loaded department. -/
def getUserSubjects (db : DB) (userId : String) (pageQ limitQ : Option String) :
    Option (ListResp (Subject × Option Department)) :=
  match db.users.find? (fun u => u.id == userId) with
  | none => some (.err 404 "User not found")
  | some u =>
    if !(u.role == "teacher") && !(u.role == "student") then
      some (.ok [] ⟨1, 0, 0, 0⟩)
    else
      match resolvePageLimit pageQ limitQ with
      | none => none
      | some (cp, lp) =>
        let totalCount :=
          if u.role == "teacher" then userSubjTeacherCount db userId
          else userSubjStudentCount db userId
        let grouped :=
          if u.role == "teacher" then userSubjTeacherGrouped db userId
          else userSubjStudentGrouped db userId
        some (.ok
          (window ((cp - 1) * lp) lp (sortByCreatedDesc (fun x => x.1.createdAt) grouped))
          (paginationOf cp lp totalCount))

/-- GET /subjects: optional search (subject name or code) and department
(department name) filters over subjects LEFT JOIN departments; the count
query includes the join; no GROUP BY. -/
def getSubjects (db : DB) (search departmentQ pageQ limitQ : Option String) :
    Option (ListResp (Subject × Option Department)) :=
  match resolvePageLimit pageQ limitQ with
  | none => none
  | some (cp, lp) =>
    let conds : List (Subject × Option Department → Bool) :=
      (if truthy search then
        [fun x => containsCI x.1.name (search.getD "") || containsCI x.1.code (search.getD "")]
       else []) ++
      (if truthy departmentQ then
        [fun x => optTest (fun d => containsCI d.name (departmentQ.getD "")) x.2]
       else [])
    let joined := leftJoin db.subjects db.departments (fun s d => s.departmentId == d.id)
    let matched := joined.filter (fun x => conds.all (fun c => c x))
    some (.ok
      (window ((cp - 1) * lp) lp (sortByCreatedDesc (fun x => x.1.createdAt) matched))
      (paginationOf cp lp matched.length))

/-- The insert-returning tail of both POST handlers: a missing returned
row raises (the throw Error line) and the catch maps it to a 500 error
body; a returned row is sent back as 201 with its id. -/
def insertResponse (ins : Option ℕ) (failMsg : String) : CreateResp :=
  match ins with
  | none => .err 500 failMsg
  | some id => .created id

/-- The request body of POST /subjects. -/
structure SubjectBody where
  departmentId : ℕ
  name : String
  code : String
  description : Option String
deriving DecidableEq, Repr

/-- POST /subjects: insert the row, answer 201 with the new id. -/
def postSubjects (db : DB) (now : ℕ) (body : SubjectBody) : DB × CreateResp :=
  let row : Subject :=
    { id := db.nextSubjectId, departmentId := body.departmentId,
      code := body.code, name := body.name, description := body.description,
      createdAt := now, updatedAt := now }
  ({ db with subjects := db.subjects ++ [row], nextSubjectId := db.nextSubjectId + 1 },
   insertResponse (some row.id) "Failed to create subject")

/-- GET /subjects/:id: 400 when the id does not coerce to a finite
number, then the subject with its eager department and its class count,
404 when no row matches. -/
def getSubjectById (db : DB) (idStr : String) :
    DetailResp ((Subject × Option Department) × ℕ) :=
  match jsToNumber idStr with
  | none => .err 400 "Invalid subject id"
  | some sid =>
    match (leftJoin db.subjects db.departments (fun s d => s.departmentId == d.id)).find?
        (fun x => decide ((x.1.id : ℚ) = sid)) with
    | none => .err 404 "Subject not found"
    | some x =>
      .ok (x, (db.classes.filter (fun c => decide ((c.subjectId : ℚ) = sid))).length)

/-- GET /subjects/:id/classes: 400 on a non-finite id; no existence
check; count(asterisk) over classes of the subject; data rows carry the
eager teacher. -/
def getSubjectClasses (db : DB) (idStr : String) (pageQ limitQ : Option String) :
    Option (ListResp (Class × Option User)) :=
  match jsToNumber idStr with
  | none => some (.err 400 "Invalid subject id")
  | some sid =>
    match resolvePageLimit pageQ limitQ with
    | none => none
    | some (cp, lp) =>
      let totalCount := (db.classes.filter (fun c => decide ((c.subjectId : ℚ) = sid))).length
      let joined := (leftJoin db.classes db.users (fun c u => u.id == c.teacherId)).filter
        (fun x => decide ((x.1.subjectId : ℚ) = sid))
      some (.ok
        (window ((cp - 1) * lp) lp (sortByCreatedDesc (fun x => x.1.createdAt) joined))
        (paginationOf cp lp totalCount))

/-- GET /subjects/:id/users: 400 on a non-finite id, then 400 unless the
role query value is exactly teacher or student; no existence check; the
role-selected chain is counted and windowed. -/
def getSubjectUsers (db : DB) (idStr : String) (roleQ pageQ limitQ : Option String) :
    Option (ListResp User) :=
  match jsToNumber idStr with
  | none => some (.err 400 "Invalid subject id")
  | some sid =>
    if !(roleQ == some "teacher") && !(roleQ == some "student") then
      some (.err 400 "Invalid role")
    else
      match resolvePageLimit pageQ limitQ with
      | none => none
      | some (cp, lp) =>
        let role := roleQ.getD ""
        let totalCount :=
          if role == "teacher" then subjectUsersTeacherCount db role sid
          else subjectUsersStudentCount db role sid
        let grouped :=
          if role == "teacher" then subjectUsersTeacherData db role sid
          else subjectUsersStudentData db role sid
        some (.ok
          (window ((cp - 1) * lp) lp (sortByCreatedDesc User.createdAt grouped))
          (paginationOf cp lp totalCount))

/-- GET /classes: optional search (class name or invite code), subject
(subject name) and teacher (teacher name) filters over classes LEFT JOIN
subjects LEFT JOIN user; the count query includes the joins. -/
def getClasses (db : DB) (search subjectQ teacherQ pageQ limitQ : Option String) :
    Option (ListResp ((Class × Option Subject) × Option User)) :=
  match resolvePageLimit pageQ limitQ with
  | none => none
  | some (cp, lp) =>
    let conds : List ((Class × Option Subject) × Option User → Bool) :=
      (if truthy search then
        [fun x => containsCI x.1.1.name (search.getD "") || containsCI x.1.1.inviteCode (search.getD "")]
       else []) ++
      (if truthy subjectQ then
        [fun x => optTest (fun s => containsCI s.name (subjectQ.getD "")) x.1.2]
       else []) ++
      (if truthy teacherQ then
        [fun x => optTest (fun u => containsCI u.name (teacherQ.getD "")) x.2]
       else [])
    let joined := leftJoin
      (leftJoin db.classes db.subjects (fun c s => s.id == c.subjectId))
      db.users (fun x u => u.id == x.1.teacherId)
    let matched := joined.filter (fun x => conds.all (fun c => c x))
    some (.ok
      (window ((cp - 1) * lp) lp (sortByCreatedDesc (fun x => x.1.1.createdAt) matched))
      (paginationOf cp lp matched.length))

/-- The request body of POST /classes.  The handler destructures only
name, teacherId, subjectId, capacity, description, status, bannerUrl and
bannerCldPubId; inviteCode and schedules may be supplied by the client
but are never read. -/
structure ClassBody where
  name : String
  teacherId : String
  subjectId : ℕ
  capacity : ℕ
  description : Option String
  status : String
  bannerUrl : Option String
  bannerCldPubId : Option String
  inviteCode : Option String
  schedules : Option (List String)
deriving DecidableEq, Repr

/-- The body fields POST /classes reads. -/
def usedClassFields (b : ClassBody) :
    String × String × ℕ × ℕ × Option String × String × Option String × Option String :=
  (b.name, b.teacherId, b.subjectId, b.capacity, b.description, b.status,
   b.bannerUrl, b.bannerCldPubId)

/-- POST /classes with random numerator k: insert the row with the
generated invite code and an empty schedules list, answer 201 with the
new id. -/
def postClasses (db : DB) (now k : ℕ) (body : ClassBody) : DB × CreateResp :=
  let row : Class :=
    { id := db.nextClassId, subjectId := body.subjectId,
      teacherId := body.teacherId, inviteCode := inviteCodeOf k,
      name := body.name, capacity := body.capacity,
      description := body.description, status := body.status,
      bannerUrl := body.bannerUrl, bannerCldPubId := body.bannerCldPubId,
      schedules := [], createdAt := now, updatedAt := now }
  ({ db with classes := db.classes ++ [row], nextClassId := db.nextClassId + 1 },
   insertResponse (some row.id) "Failed to create class")

/-- GET /classes/:id: 400 on a non-finite id; the class with its eager
subject, department and teacher; 404 when no row matches. -/
def getClassById (db : DB) (idStr : String) :
    DetailResp (((Class × Option Subject) × Option Department) × Option User) :=
  match jsToNumber idStr with
  | none => .err 400 "Invalid class id"
  | some cid =>
    match (leftJoin
        (leftJoin
          (leftJoin db.classes db.subjects (fun c s => s.id == c.subjectId))
          db.departments (fun x d => optTest (fun s => d.id == s.departmentId) x.2))
        db.users (fun x u => u.id == x.1.1.teacherId)).find?
        (fun x => decide ((x.1.1.1.id : ℚ) = cid)) with
    | none => .err 404 "Class not found"
    | some x => .ok x

/-- GET /classes/:id/users: 400 on a non-finite id, then 400 unless the
role query value is exactly teacher or student; no existence check. -/
def getClassUsers (db : DB) (idStr : String) (roleQ pageQ limitQ : Option String) :
    Option (ListResp User) :=
  match jsToNumber idStr with
  | none => some (.err 400 "Invalid class id")
  | some cid =>
    if !(roleQ == some "teacher") && !(roleQ == some "student") then
      some (.err 400 "Invalid role")
    else
      match resolvePageLimit pageQ limitQ with
      | none => none
      | some (cp, lp) =>
        let role := roleQ.getD ""
        let totalCount :=
          if role == "teacher" then classUsersTeacherCount db role cid
          else classUsersStudentCount db role cid
        let grouped :=
          if role == "teacher" then classUsersTeacherData db role cid
          else classUsersStudentData db role cid
        some (.ok
          (window ((cp - 1) * lp) lp (sortByCreatedDesc User.createdAt grouped))
          (paginationOf cp lp totalCount))

/-! ## Spec-side totals

The following definitions are the refinement side of the count-agreement
claims: they follow the words of the specification (the number of
distinct root rows matching the filter predicate, a root row matching
when some chain of related rows reaches it), not the join chains of the
source, and are compared with the count queries above.
-/

/-- Spec reading: distinct departments having a subject with a class
taught by the user. -/
def specUserDeptTeacherTotal (db : DB) (uid : String) : ℕ :=
  countDistinct ((db.departments.filter (fun d => db.subjects.any (fun s =>
    s.departmentId == d.id && db.classes.any (fun c =>
      c.subjectId == s.id && c.teacherId == uid)))).map Department.id)

/-- Spec reading: distinct departments having a subject with a class the
user is enrolled in. -/
def specUserDeptStudentTotal (db : DB) (uid : String) : ℕ :=
  countDistinct ((db.departments.filter (fun d => db.subjects.any (fun s =>
    s.departmentId == d.id && db.classes.any (fun c =>
      c.subjectId == s.id && db.enrollments.any (fun e =>
        e.classId == c.id && e.studentId == uid))))).map Department.id)

/-- Spec reading: distinct subjects having a class taught by the user. -/
def specUserSubjTeacherTotal (db : DB) (uid : String) : ℕ :=
  countDistinct ((db.subjects.filter (fun s => db.classes.any (fun c =>
    c.subjectId == s.id && c.teacherId == uid))).map Subject.id)

/-- Spec reading: distinct subjects having a class the user is enrolled
in. -/
def specUserSubjStudentTotal (db : DB) (uid : String) : ℕ :=
  countDistinct ((db.subjects.filter (fun s => db.classes.any (fun c =>
    c.subjectId == s.id && db.enrollments.any (fun e =>
      e.classId == c.id && e.studentId == uid)))).map Subject.id)

/-- Spec reading: distinct users of the given role teaching a class of
the subject. -/
def specSubjectUsersTeacherTotal (db : DB) (role : String) (sid : ℚ) : ℕ :=
  countDistinct ((db.users.filter (fun u => u.role == role &&
    db.classes.any (fun c => u.id == c.teacherId && decide ((c.subjectId : ℚ) = sid)))).map
    User.id)

/-- Spec reading: distinct users of the given role enrolled in a class of
the subject. -/
def specSubjectUsersStudentTotal (db : DB) (role : String) (sid : ℚ) : ℕ :=
  countDistinct ((db.users.filter (fun u => u.role == role &&
    db.enrollments.any (fun e => u.id == e.studentId &&
      db.classes.any (fun c => e.classId == c.id && decide ((c.subjectId : ℚ) = sid))))).map
    User.id)

/-- Spec reading: distinct users of the given role teaching the class. -/
def specClassUsersTeacherTotal (db : DB) (role : String) (cid : ℚ) : ℕ :=
  countDistinct ((db.users.filter (fun u => u.role == role &&
    db.classes.any (fun c => u.id == c.teacherId && decide ((c.id : ℚ) = cid)))).map
    User.id)

/-- Spec reading: distinct users of the given role enrolled in the
class. -/
def specClassUsersStudentTotal (db : DB) (role : String) (cid : ℚ) : ℕ :=
  countDistinct ((db.users.filter (fun u => u.role == role &&
    db.enrollments.any (fun e => u.id == e.studentId && decide ((e.classId : ℚ) = cid)))).map
    User.id)

/-! ## Concrete fixtures used by witnesses and counterexamples -/

/-- A teacher user. -/
def userT : User := ⟨"T", "Teach", "t@x", true, none, "teacher", none, 5, 5⟩

/-- A student user. -/
def userE : User := ⟨"E", "Stud", "e@x", true, none, "student", none, 6, 6⟩

/-- An admin user (a stored role that is neither teacher nor student). -/
def userA : User := ⟨"A", "Admin", "a@x", true, none, "admin", none, 7, 7⟩

/-- One department. -/
def deptW : Department := ⟨1, "D1", "Science", none, 1, 1⟩

/-- Three subjects of that department. -/
def subjW1 : Subject := ⟨1, 1, "S1", "Math", none, 1, 1⟩

def subjW2 : Subject := ⟨2, 1, "S2", "Phys", none, 2, 2⟩

def subjW3 : Subject := ⟨3, 1, "S3", "Chem", none, 3, 3⟩

/-- A class of subject sdx taught by T. -/
def classW (i sdx : ℕ) : Class :=
  ⟨i, sdx, "T", "code", "C", 30, none, "active", none, none, [], i, i⟩

/-- The fan-out database of the regression example: one department with
three subjects, each with two classes, all taught by T; the student E is
enrolled in the two classes of the first subject. -/
def dbFan : DB :=
  ⟨[userT, userE, userA], [deptW], [subjW1, subjW2, subjW3],
   [classW 1 1, classW 2 1, classW 3 2, classW 4 2, classW 5 3, classW 6 3],
   [⟨"E", 1⟩, ⟨"E", 2⟩], 4, 7⟩

/-- The empty database. -/
def dbEmpty : DB := ⟨[], [], [], [], [], 1, 1⟩

/-- A POST /classes body that also supplies inviteCode and schedules. -/
def bodyW1 : ClassBody :=
  ⟨"Algebra I", "T", 1, 30, none, "active", none, none, some "HACK", some ["x"]⟩

/-- The same body without the ignored fields. -/
def bodyW2 : ClassBody :=
  ⟨"Algebra I", "T", 1, 30, none, "active", none, none, none, none⟩

/-! ## Generic lemmas about the query combinators -/

theorem optTest_eq_true {p : β → Bool} {ob : Option β} :
    optTest p ob = true ↔ ∃ b, ob = some b ∧ p b = true := by
  cases ob <;> simp [optTest]

theorem mem_leftJoin {l : List α} {r : List β} {j : α → β → Bool}
    {a : α} {ob : Option β} :
    (a, ob) ∈ leftJoin l r j ↔
      a ∈ l ∧ ((ob = none ∧ (r.filter (fun b => j a b)).isEmpty) ∨
        (∃ b, ob = some b ∧ b ∈ r ∧ j a b = true)) := by
  simp only [leftJoin, List.mem_flatMap]
  constructor
  · rintro ⟨a2, ha2, hmem⟩
    by_cases h : (r.filter (fun b => j a2 b)).isEmpty
    · simp only [h, if_pos] at hmem
      simp only [List.mem_singleton, Prod.mk.injEq] at hmem
      obtain ⟨rfl, rfl⟩ := hmem
      exact ⟨ha2, Or.inl ⟨rfl, h⟩⟩
    · simp only [h, if_neg, Bool.false_eq_true, not_false_iff, List.mem_map] at hmem
      obtain ⟨b, hb, heq⟩ := hmem
      simp only [Prod.mk.injEq] at heq
      obtain ⟨rfl, rfl⟩ := heq
      rw [List.mem_filter] at hb
      exact ⟨ha2, Or.inr ⟨b, rfl, hb.1, hb.2⟩⟩
  · rintro ⟨ha, h | h⟩
    · obtain ⟨rfl, hemp⟩ := h
      exact ⟨a, ha, by simp [hemp]⟩
    · obtain ⟨b, rfl, hbr, hj⟩ := h
      refine ⟨a, ha, ?_⟩
      have hne : ¬ (r.filter (fun x => j a x)).isEmpty := by
        simp only [List.isEmpty_iff]
        intro hnil
        have hbf : b ∈ r.filter (fun x => j a x) := List.mem_filter.2 ⟨hbr, hj⟩
        rw [hnil] at hbf
        exact absurd hbf (List.not_mem_nil b)
      simp only [hne, if_neg, Bool.false_eq_true, not_false_iff, List.mem_map]
      exact ⟨b, List.mem_filter.2 ⟨hbr, hj⟩, rfl⟩

theorem mem_leftJoin_some {l : List α} {r : List β} {j : α → β → Bool}
    {a : α} {b : β} :
    (a, some b) ∈ leftJoin l r j ↔ a ∈ l ∧ b ∈ r ∧ j a b = true := by
  rw [mem_leftJoin]
  constructor
  · rintro ⟨ha, h | ⟨b2, hb2, hmem, hj⟩⟩
    · exact absurd h.1 (by simp)
    · cases Option.some.inj hb2; exact ⟨ha, hmem, hj⟩
  · rintro ⟨ha, hb, hj⟩
    exact ⟨ha, Or.inr ⟨b, rfl, hb, hj⟩⟩

theorem exists_snd_mem_leftJoin {l : List α} {r : List β} {j : α → β → Bool}
    {a : α} (ha : a ∈ l) : ∃ ob, (a, ob) ∈ leftJoin l r j := by
  by_cases h : (r.filter (fun b => j a b)).isEmpty
  · exact ⟨none, mem_leftJoin.2 ⟨ha, Or.inl ⟨rfl, h⟩⟩⟩
  · cases hf : r.filter (fun b => j a b) with
    | nil => rw [hf] at h; exact absurd rfl h
    | cons b t =>
      have hb : b ∈ r.filter (fun x => j a x) := by rw [hf]; exact List.mem_cons_self b t
      rw [List.mem_filter] at hb
      exact ⟨some b, mem_leftJoin_some.2 ⟨ha, hb.1, hb.2⟩⟩

theorem fst_mem_of_mem_leftJoin {l : List α} {r : List β} {j : α → β → Bool}
    {x : α × Option β} (h : x ∈ leftJoin l r j) : x.1 ∈ l := by
  obtain ⟨a, ob⟩ := x
  exact (mem_leftJoin.1 h).1

theorem window_sublist (o n : ℕ) (l : List α) : (window o n l).Sublist l :=
  ((l.drop o).take_sublist n).trans (l.drop_sublist o)

theorem length_window_le (o n : ℕ) (l : List α) : (window o n l).length ≤ n := by
  simp only [window, List.length_take]
  exact Nat.min_le_left _ _

theorem insertDesc_perm (key : α → ℕ) (a : α) (l : List α) :
    (insertDesc key a l).Perm (a :: l) := by
  induction l with
  | nil => exact List.Perm.refl _
  | cons b t ih =>
    rw [insertDesc]
    by_cases h : key b ≤ key a
    · rw [if_pos h]
    · rw [if_neg h]
      exact (ih.cons b).trans (List.Perm.swap a b t)

theorem sortByCreatedDesc_perm (key : α → ℕ) (l : List α) :
    (sortByCreatedDesc key l).Perm l := by
  induction l with
  | nil => exact List.Perm.refl _
  | cons a t ih =>
    rw [sortByCreatedDesc]
    exact (insertDesc_perm key a _).trans (ih.cons a)

theorem mem_sortByCreatedDesc {key : α → ℕ} {l : List α} {x : α} :
    x ∈ sortByCreatedDesc key l ↔ x ∈ l :=
  (sortByCreatedDesc_perm key l).mem_iff

theorem mem_window_sort {key : α → ℕ} {o n : ℕ} {l : List α} {x : α}
    (h : x ∈ window o n (sortByCreatedDesc key l)) : x ∈ l :=
  mem_sortByCreatedDesc.1 ((window_sublist o n _).subset h)

theorem nodup_map_window_sort {key : α → ℕ} {f : α → κ} {o n : ℕ} {l : List α}
    (h : (l.map f).Nodup) : ((window o n (sortByCreatedDesc key l)).map f).Nodup := by
  have hperm : ((sortByCreatedDesc key l).map f).Perm (l.map f) :=
    (sortByCreatedDesc_perm key l).map f
  exact List.Nodup.sublist ((window_sublist o n _).map f) (hperm.symm.nodup h)

theorem ceilNat_eq_ceil (t l : ℕ) (hl : 1 ≤ l) :
    ceilNat t l = ⌈(t : ℚ) / (l : ℚ)⌉₊ := by
  have hl0 : (0 : ℚ) < (l : ℚ) := by exact_mod_cast hl
  unfold ceilNat
  rcases Nat.eq_zero_or_pos t with rfl | ht
  · simp only [Nat.zero_add, Nat.cast_zero, zero_div, Nat.ceil_zero]
    exact Nat.div_eq_of_lt (by omega)
  · set n := (t + l - 1) / l with hn
    have hub : t ≤ n * l := by
      have h1 : t + l - 1 < (n + 1) * l := by
        rw [← Nat.div_lt_iff_lt_mul (by omega : 0 < l), ← hn]
        omega
      rw [Nat.succ_mul] at h1
      omega
    have hne : n ≠ 0 := by
      intro h0
      rw [h0, Nat.zero_mul] at hub
      omega
    obtain ⟨m, hm⟩ := Nat.exists_eq_succ_of_ne_zero hne
    have hlb : m * l < t := by
      have h2 : n * l ≤ t + l - 1 :=
        (Nat.le_div_iff_mul_le (by omega : 0 < l)).1 (le_of_eq hn)
      rw [hm, Nat.succ_mul] at h2
      omega
    rw [eq_comm, Nat.ceil_eq_iff hne]
    constructor
    · rw [lt_div_iff₀ hl0]
      have hn1 : n - 1 = m := by omega
      rw [hn1]
      exact_mod_cast hlb
    · rw [div_le_iff₀ hl0]
      exact_mod_cast hub

theorem ceilNat_zero_zero : ceilNat 0 0 = ⌈(0 : ℚ) / (0 : ℚ)⌉₊ := by
  simp [ceilNat]

/-! ## Distinct-count agreement: generic join-chain lemmas

The count queries of the nested listings compute count(distinct root.id)
over a chain of left joins whose WHERE clause tests a column of the last
joined table (and possibly a column of the root).  The following lemmas
show that the distinct values of a root column in such a chain are
exactly its distinct values among the root rows satisfying the
existential reading of the chain.
-/

theorem countChain1_toFinset [DecidableEq κ] (l : List α) (r : List β)
    (j : α → β → Bool) (p : β → Bool) (f : α → κ) :
    ((((leftJoin l r j).filter (fun x => optTest p x.2)).map (fun x => f x.1)).toFinset : Finset κ) =
      ((l.filter (fun a => r.any (fun b => j a b && p b))).map f).toFinset := by
  ext i
  simp only [List.mem_toFinset, List.mem_map, List.mem_filter, List.any_eq_true,
    Bool.and_eq_true]
  constructor
  · rintro ⟨⟨a, ob⟩, ⟨hchain, hw⟩, rfl⟩
    obtain ⟨b, rfl, hpb⟩ := optTest_eq_true.1 hw
    obtain ⟨ha, hb, hj⟩ := mem_leftJoin_some.1 hchain
    exact ⟨a, ⟨ha, b, ⟨hb, hj, hpb⟩⟩, rfl⟩
  · rintro ⟨a, ⟨ha, b, hb, hj, hpb⟩, rfl⟩
    exact ⟨(a, some b),
      ⟨mem_leftJoin_some.2 ⟨ha, hb, hj⟩, optTest_eq_true.2 ⟨b, rfl, hpb⟩⟩, rfl⟩

theorem countChain1q_toFinset [DecidableEq κ] (l : List α) (r : List β)
    (j : α → β → Bool) (q : α → Bool) (p : β → Bool) (f : α → κ) :
    ((((leftJoin l r j).filter (fun x => q x.1 && optTest p x.2)).map
        (fun x => f x.1)).toFinset : Finset κ) =
      ((l.filter (fun a => q a && r.any (fun b => j a b && p b))).map f).toFinset := by
  ext i
  simp only [List.mem_toFinset, List.mem_map, List.mem_filter, List.any_eq_true,
    Bool.and_eq_true]
  constructor
  · rintro ⟨⟨a, ob⟩, ⟨hchain, hq, hw⟩, rfl⟩
    obtain ⟨b, rfl, hpb⟩ := optTest_eq_true.1 hw
    obtain ⟨ha, hb, hj⟩ := mem_leftJoin_some.1 hchain
    exact ⟨a, ⟨ha, hq, b, ⟨hb, hj, hpb⟩⟩, rfl⟩
  · rintro ⟨a, ⟨ha, hq, b, hb, hj, hpb⟩, rfl⟩
    exact ⟨(a, some b),
      ⟨mem_leftJoin_some.2 ⟨ha, hb, hj⟩, hq, optTest_eq_true.2 ⟨b, rfl, hpb⟩⟩, rfl⟩

theorem countChain2_toFinset [DecidableEq κ] (l : List α) (r1 : List β) (r2 : List γ)
    (j1 : α → β → Bool) (j2 : β → γ → Bool) (p : γ → Bool) (f : α → κ) :
    ((((leftJoin (leftJoin l r1 j1) r2 (fun x c => optTest (fun b => j2 b c) x.2)).filter
        (fun x => optTest p x.2)).map (fun x => f x.1.1)).toFinset : Finset κ) =
      ((l.filter (fun a =>
        r1.any (fun b => j1 a b && r2.any (fun c => j2 b c && p c)))).map f).toFinset := by
  ext i
  simp only [List.mem_toFinset, List.mem_map, List.mem_filter, List.any_eq_true,
    Bool.and_eq_true]
  constructor
  · rintro ⟨⟨⟨a, ob⟩, oc⟩, ⟨hchain, hw⟩, rfl⟩
    obtain ⟨c, rfl, hpc⟩ := optTest_eq_true.1 hw
    obtain ⟨hmem1, hc, hj2o⟩ := mem_leftJoin_some.1 hchain
    obtain ⟨b, rfl, hj2⟩ := optTest_eq_true.1 hj2o
    obtain ⟨ha, hb, hj1⟩ := mem_leftJoin_some.1 hmem1
    exact ⟨a, ⟨ha, b, hb, hj1, c, ⟨hc, hj2, hpc⟩⟩, rfl⟩
  · rintro ⟨a, ⟨ha, b, hb, hj1, c, hc, hj2, hpc⟩, rfl⟩
    refine ⟨((a, some b), some c), ⟨?_, ?_⟩, rfl⟩
    · exact mem_leftJoin_some.2
        ⟨mem_leftJoin_some.2 ⟨ha, hb, hj1⟩, hc, optTest_eq_true.2 ⟨b, rfl, hj2⟩⟩
    · exact optTest_eq_true.2 ⟨c, rfl, hpc⟩

theorem countChain2q_toFinset [DecidableEq κ] (l : List α) (r1 : List β) (r2 : List γ)
    (j1 : α → β → Bool) (j2 : β → γ → Bool) (q : α → Bool) (p : γ → Bool) (f : α → κ) :
    ((((leftJoin (leftJoin l r1 j1) r2 (fun x c => optTest (fun b => j2 b c) x.2)).filter
        (fun x => q x.1.1 && optTest p x.2)).map (fun x => f x.1.1)).toFinset : Finset κ) =
      ((l.filter (fun a =>
        q a && r1.any (fun b => j1 a b && r2.any (fun c => j2 b c && p c)))).map f).toFinset := by
  ext i
  simp only [List.mem_toFinset, List.mem_map, List.mem_filter, List.any_eq_true,
    Bool.and_eq_true]
  constructor
  · rintro ⟨⟨⟨a, ob⟩, oc⟩, ⟨hchain, hq, hw⟩, rfl⟩
    obtain ⟨c, rfl, hpc⟩ := optTest_eq_true.1 hw
    obtain ⟨hmem1, hc, hj2o⟩ := mem_leftJoin_some.1 hchain
    obtain ⟨b, rfl, hj2⟩ := optTest_eq_true.1 hj2o
    obtain ⟨ha, hb, hj1⟩ := mem_leftJoin_some.1 hmem1
    exact ⟨a, ⟨ha, hq, b, hb, hj1, c, ⟨hc, hj2, hpc⟩⟩, rfl⟩
  · rintro ⟨a, ⟨ha, hq, b, hb, hj1, c, hc, hj2, hpc⟩, rfl⟩
    refine ⟨((a, some b), some c), ⟨?_, hq, ?_⟩, rfl⟩
    · exact mem_leftJoin_some.2
        ⟨mem_leftJoin_some.2 ⟨ha, hb, hj1⟩, hc, optTest_eq_true.2 ⟨b, rfl, hj2⟩⟩
    · exact optTest_eq_true.2 ⟨c, rfl, hpc⟩

theorem countChain3_toFinset [DecidableEq κ] (l : List α) (r1 : List β) (r2 : List γ)
    (r3 : List δ) (j1 : α → β → Bool) (j2 : β → γ → Bool) (j3 : γ → δ → Bool)
    (p : δ → Bool) (f : α → κ) :
    ((((leftJoin
          (leftJoin (leftJoin l r1 j1) r2 (fun x c => optTest (fun b => j2 b c) x.2))
          r3 (fun x e => optTest (fun c => j3 c e) x.2)).filter
        (fun x => optTest p x.2)).map (fun x => f x.1.1.1)).toFinset : Finset κ) =
      ((l.filter (fun a => r1.any (fun b => j1 a b &&
        r2.any (fun c => j2 b c && r3.any (fun e => j3 c e && p e))))).map f).toFinset := by
  ext i
  simp only [List.mem_toFinset, List.mem_map, List.mem_filter, List.any_eq_true,
    Bool.and_eq_true]
  constructor
  · rintro ⟨⟨⟨⟨a, ob⟩, oc⟩, oe⟩, ⟨hchain, hw⟩, rfl⟩
    obtain ⟨e, rfl, hpe⟩ := optTest_eq_true.1 hw
    obtain ⟨hmem2, he, hj3o⟩ := mem_leftJoin_some.1 hchain
    obtain ⟨c, rfl, hj3⟩ := optTest_eq_true.1 hj3o
    obtain ⟨hmem1, hc, hj2o⟩ := mem_leftJoin_some.1 hmem2
    obtain ⟨b, rfl, hj2⟩ := optTest_eq_true.1 hj2o
    obtain ⟨ha, hb, hj1⟩ := mem_leftJoin_some.1 hmem1
    exact ⟨a, ⟨ha, b, hb, hj1, c, hc, hj2, e, ⟨he, hj3, hpe⟩⟩, rfl⟩
  · rintro ⟨a, ⟨ha, b, hb, hj1, c, hc, hj2, e, he, hj3, hpe⟩, rfl⟩
    refine ⟨(((a, some b), some c), some e), ⟨?_, ?_⟩, rfl⟩
    · exact mem_leftJoin_some.2
        ⟨mem_leftJoin_some.2
          ⟨mem_leftJoin_some.2 ⟨ha, hb, hj1⟩, hc, optTest_eq_true.2 ⟨b, rfl, hj2⟩⟩,
         he, optTest_eq_true.2 ⟨c, rfl, hj3⟩⟩
    · exact optTest_eq_true.2 ⟨e, rfl, hpe⟩

theorem snd_unique_leftJoin {l : List α} {r : List β} {j : α → β → Bool}
    {a : α} {ob1 ob2 : Option β}
    (huniq : ∀ b1 ∈ r, ∀ b2 ∈ r, j a b1 = true → j a b2 = true → b1 = b2)
    (h1 : (a, ob1) ∈ leftJoin l r j) (h2 : (a, ob2) ∈ leftJoin l r j) :
    ob1 = ob2 := by
  rw [mem_leftJoin] at h1 h2
  rcases h1.2 with ⟨rfl, hemp1⟩ | ⟨b1, rfl, hb1, hj1⟩ <;>
    rcases h2.2 with ⟨rfl, hemp2⟩ | ⟨b2, rfl, hb2, hj2⟩
  · rfl
  · rw [List.isEmpty_iff] at hemp1
    have : b2 ∈ r.filter (fun b => j a b) := List.mem_filter.2 ⟨hb2, hj2⟩
    rw [hemp1] at this
    exact absurd this (List.not_mem_nil b2)
  · rw [List.isEmpty_iff] at hemp2
    have : b1 ∈ r.filter (fun b => j a b) := List.mem_filter.2 ⟨hb1, hj1⟩
    rw [hemp2] at this
    exact absurd this (List.not_mem_nil b1)
  · rw [huniq b1 hb1 b2 hb2 hj1 hj2]

/-! ## Count-agreement lemmas, one per branch -/

theorem userDeptTeacherCount_eq (db : DB) (uid : String) :
    userDeptTeacherCount db uid = specUserDeptTeacherTotal db uid := by
  unfold userDeptTeacherCount specUserDeptTeacherTotal countDistinct userDeptTeacherRows
  rw [← List.card_toFinset, ← List.card_toFinset]
  exact congrArg Finset.card (countChain2_toFinset db.departments db.subjects db.classes
    (fun d s => s.departmentId == d.id) (fun s c => c.subjectId == s.id)
    (fun c => c.teacherId == uid) Department.id)

theorem userDeptStudentCount_eq (db : DB) (uid : String) :
    userDeptStudentCount db uid = specUserDeptStudentTotal db uid := by
  unfold userDeptStudentCount specUserDeptStudentTotal countDistinct userDeptStudentRows
  rw [← List.card_toFinset, ← List.card_toFinset]
  exact congrArg Finset.card (countChain3_toFinset db.departments db.subjects db.classes
    db.enrollments (fun d s => s.departmentId == d.id) (fun s c => c.subjectId == s.id)
    (fun c e => e.classId == c.id) (fun e => e.studentId == uid) Department.id)

theorem userSubjTeacherCount_eq (db : DB) (uid : String) :
    userSubjTeacherCount db uid = specUserSubjTeacherTotal db uid := by
  unfold userSubjTeacherCount specUserSubjTeacherTotal countDistinct userSubjTeacherCountRows
  rw [← List.card_toFinset, ← List.card_toFinset]
  exact congrArg Finset.card (countChain1_toFinset db.subjects db.classes
    (fun s c => c.subjectId == s.id) (fun c => c.teacherId == uid) Subject.id)

theorem userSubjStudentCount_eq (db : DB) (uid : String) :
    userSubjStudentCount db uid = specUserSubjStudentTotal db uid := by
  unfold userSubjStudentCount specUserSubjStudentTotal countDistinct userSubjStudentCountRows
  rw [← List.card_toFinset, ← List.card_toFinset]
  exact congrArg Finset.card (countChain2_toFinset db.subjects db.classes db.enrollments
    (fun s c => c.subjectId == s.id) (fun c e => e.classId == c.id)
    (fun e => e.studentId == uid) Subject.id)

theorem subjectUsersTeacherCount_eq (db : DB) (role : String) (sid : ℚ) :
    subjectUsersTeacherCount db role sid = specSubjectUsersTeacherTotal db role sid := by
  unfold subjectUsersTeacherCount specSubjectUsersTeacherTotal countDistinct
    subjectUsersTeacherRows
  rw [← List.card_toFinset, ← List.card_toFinset]
  exact congrArg Finset.card (countChain1q_toFinset db.users db.classes
    (fun u c => u.id == c.teacherId) (fun u => u.role == role)
    (fun c => decide ((c.subjectId : ℚ) = sid)) User.id)

theorem subjectUsersStudentCount_eq (db : DB) (role : String) (sid : ℚ) :
    subjectUsersStudentCount db role sid = specSubjectUsersStudentTotal db role sid := by
  unfold subjectUsersStudentCount specSubjectUsersStudentTotal countDistinct
    subjectUsersStudentRows
  rw [← List.card_toFinset, ← List.card_toFinset]
  exact congrArg Finset.card (countChain2q_toFinset db.users db.enrollments db.classes
    (fun u e => u.id == e.studentId) (fun e c => e.classId == c.id)
    (fun u => u.role == role) (fun c => decide ((c.subjectId : ℚ) = sid)) User.id)

theorem classUsersTeacherCount_eq (db : DB) (role : String) (cid : ℚ) :
    classUsersTeacherCount db role cid = specClassUsersTeacherTotal db role cid := by
  unfold classUsersTeacherCount specClassUsersTeacherTotal countDistinct classUsersTeacherRows
  rw [← List.card_toFinset, ← List.card_toFinset]
  exact congrArg Finset.card (countChain1q_toFinset db.users db.classes
    (fun u c => u.id == c.teacherId) (fun u => u.role == role)
    (fun c => decide ((c.id : ℚ) = cid)) User.id)

theorem classUsersStudentCount_eq (db : DB) (role : String) (cid : ℚ) :
    classUsersStudentCount db role cid = specClassUsersStudentTotal db role cid := by
  unfold classUsersStudentCount specClassUsersStudentTotal countDistinct classUsersStudentRows
  rw [← List.card_toFinset, ← List.card_toFinset]
  exact congrArg Finset.card (countChain1q_toFinset db.users db.enrollments
    (fun u e => u.id == e.studentId) (fun u => u.role == role)
    (fun e => decide ((e.classId : ℚ) = cid)) User.id)

/-! ## Membership and duplicate-freedom of the user-subjects data query -/

theorem mem_userSubjTeacherGrouped {db : DB} {uid : String} {s : Subject}
    {od : Option Department} :
    (s, od) ∈ userSubjTeacherGrouped db uid ↔
      ((s, od) ∈ leftJoin db.subjects db.departments (fun s d => s.departmentId == d.id) ∧
        db.classes.any (fun c => c.subjectId == s.id && c.teacherId == uid) = true) := by
  unfold userSubjTeacherGrouped userSubjTeacherDataRows
  rw [List.mem_dedup]
  simp only [List.mem_map, List.mem_filter]
  constructor
  · rintro ⟨⟨⟨s2, od2⟩, oc⟩, ⟨hchain, hw⟩, heq⟩
    simp only [Prod.mk.injEq] at heq
    obtain ⟨rfl, rfl⟩ := heq
    obtain ⟨c, rfl, hpc⟩ := optTest_eq_true.1 hw
    obtain ⟨hmem1, hc, hj2⟩ := mem_leftJoin_some.1 hchain
    refine ⟨hmem1, List.any_eq_true.2 ⟨c, hc, ?_⟩⟩
    rw [Bool.and_eq_true]
    exact ⟨hj2, hpc⟩
  · rintro ⟨hmem1, hany⟩
    obtain ⟨c, hc, hcc⟩ := List.any_eq_true.1 hany
    rw [Bool.and_eq_true] at hcc
    exact ⟨((s, od), some c),
      ⟨mem_leftJoin_some.2 ⟨hmem1, hc, hcc.1⟩, optTest_eq_true.2 ⟨c, rfl, hcc.2⟩⟩, rfl⟩

theorem mem_userSubjStudentGrouped {db : DB} {uid : String} {s : Subject}
    {od : Option Department} :
    (s, od) ∈ userSubjStudentGrouped db uid ↔
      ((s, od) ∈ leftJoin db.subjects db.departments (fun s d => s.departmentId == d.id) ∧
        db.classes.any (fun c => c.subjectId == s.id &&
          db.enrollments.any (fun e => e.classId == c.id && e.studentId == uid)) = true) := by
  unfold userSubjStudentGrouped userSubjStudentDataRows
  rw [List.mem_dedup]
  simp only [List.mem_map, List.mem_filter]
  constructor
  · rintro ⟨⟨⟨⟨s2, od2⟩, oc⟩, oe⟩, ⟨hchain, hw⟩, heq⟩
    simp only [Prod.mk.injEq] at heq
    obtain ⟨rfl, rfl⟩ := heq
    obtain ⟨e, rfl, hpe⟩ := optTest_eq_true.1 hw
    obtain ⟨hmem2, he, hj3o⟩ := mem_leftJoin_some.1 hchain
    obtain ⟨c, rfl, hj3⟩ := optTest_eq_true.1 hj3o
    obtain ⟨hmem1, hc, hj2⟩ := mem_leftJoin_some.1 hmem2
    refine ⟨hmem1, List.any_eq_true.2 ⟨c, hc, ?_⟩⟩
    rw [Bool.and_eq_true]
    refine ⟨hj2, List.any_eq_true.2 ⟨e, he, ?_⟩⟩
    rw [Bool.and_eq_true]
    exact ⟨hj3, hpe⟩
  · rintro ⟨hmem1, hany⟩
    obtain ⟨c, hc, hcc⟩ := List.any_eq_true.1 hany
    rw [Bool.and_eq_true] at hcc
    obtain ⟨hj2, hany2⟩ := hcc
    obtain ⟨e, he, hee⟩ := List.any_eq_true.1 hany2
    rw [Bool.and_eq_true] at hee
    refine ⟨(((s, od), some c), some e), ⟨?_, optTest_eq_true.2 ⟨e, rfl, hee.2⟩⟩, rfl⟩
    exact mem_leftJoin_some.2
      ⟨mem_leftJoin_some.2 ⟨hmem1, hc, hj2⟩, he, optTest_eq_true.2 ⟨c, rfl, hee.1⟩⟩

theorem exists_snd_userSubjTeacherGrouped {db : DB} {uid : String} {s : Subject} :
    (∃ od, (s, od) ∈ userSubjTeacherGrouped db uid) ↔
      (s ∈ db.subjects ∧
        db.classes.any (fun c => c.subjectId == s.id && c.teacherId == uid) = true) := by
  constructor
  · rintro ⟨od, hod⟩
    rw [mem_userSubjTeacherGrouped] at hod
    exact ⟨fst_mem_of_mem_leftJoin hod.1, hod.2⟩
  · rintro ⟨hs, hany⟩
    obtain ⟨od, hod⟩ := exists_snd_mem_leftJoin (r := db.departments)
      (j := fun s d => s.departmentId == d.id) hs
    exact ⟨od, mem_userSubjTeacherGrouped.2 ⟨hod, hany⟩⟩

theorem exists_snd_userSubjStudentGrouped {db : DB} {uid : String} {s : Subject} :
    (∃ od, (s, od) ∈ userSubjStudentGrouped db uid) ↔
      (s ∈ db.subjects ∧
        db.classes.any (fun c => c.subjectId == s.id &&
          db.enrollments.any (fun e => e.classId == c.id && e.studentId == uid)) = true) := by
  constructor
  · rintro ⟨od, hod⟩
    rw [mem_userSubjStudentGrouped] at hod
    exact ⟨fst_mem_of_mem_leftJoin hod.1, hod.2⟩
  · rintro ⟨hs, hany⟩
    obtain ⟨od, hod⟩ := exists_snd_mem_leftJoin (r := db.departments)
      (j := fun s d => s.departmentId == d.id) hs
    exact ⟨od, mem_userSubjStudentGrouped.2 ⟨hod, hany⟩⟩

theorem nodup_grouped_ids {db : DB} {G : List (Subject × Option Department)}
    (hG : G.Nodup)
    (hmem : ∀ x ∈ G,
      x ∈ leftJoin db.subjects db.departments (fun s d => s.departmentId == d.id))
    (hs : (db.subjects.map Subject.id).Nodup)
    (hd : (db.departments.map Department.id).Nodup) :
    (G.map (fun x => x.1.id)).Nodup := by
  apply List.Nodup.map_on _ hG
  rintro ⟨s1, od1⟩ h1 ⟨s2, od2⟩ h2 hid
  have hm1 := hmem _ h1
  have hm2 := hmem _ h2
  have hs1 : s1 ∈ db.subjects := fst_mem_of_mem_leftJoin hm1
  have hs2 : s2 ∈ db.subjects := fst_mem_of_mem_leftJoin hm2
  have hseq : s1 = s2 := List.inj_on_of_nodup_map hs hs1 hs2 hid
  subst hseq
  have hod : od1 = od2 := by
    apply snd_unique_leftJoin _ hm1 hm2
    intro d1 hd1 d2 hd2 hj1 hj2
    rw [beq_iff_eq] at hj1 hj2
    exact List.inj_on_of_nodup_map hd hd1 hd2 (by rw [← hj1, ← hj2])
  rw [hod]

theorem nodup_userSubjTeacherGrouped_ids {db : DB} {uid : String}
    (hs : (db.subjects.map Subject.id).Nodup)
    (hd : (db.departments.map Department.id).Nodup) :
    ((userSubjTeacherGrouped db uid).map (fun x => x.1.id)).Nodup := by
  apply nodup_grouped_ids (List.nodup_dedup _) _ hs hd
  rintro ⟨s, od⟩ hx
  exact (mem_userSubjTeacherGrouped.1 hx).1

theorem nodup_userSubjStudentGrouped_ids {db : DB} {uid : String}
    (hs : (db.subjects.map Subject.id).Nodup)
    (hd : (db.departments.map Department.id).Nodup) :
    ((userSubjStudentGrouped db uid).map (fun x => x.1.id)).Nodup := by
  apply nodup_grouped_ids (List.nodup_dedup _) _ hs hd
  rintro ⟨s, od⟩ hx
  exact (mem_userSubjStudentGrouped.1 hx).1

theorem jsMax1_ge_one {x : JsNum} {q : ℚ} (h : jsMax1 x = .fin q) : 1 ≤ q := by
  cases x with
  | nan => exact absurd h (by simp [jsMax1])
  | posInf => exact absurd h (by simp [jsMax1])
  | negInf =>
    simp only [jsMax1, JsNum.fin.injEq] at h
    rw [← h]
  | fin v =>
    simp only [jsMax1, JsNum.fin.injEq] at h
    rw [← h]
    exact le_max_left 1 v

theorem ratToNat_ge_one {q : ℚ} {n : ℕ} (hq : 1 ≤ q) (h : ratToNat q = some n) :
    1 ≤ n := by
  unfold ratToNat at h
  split at h
  case isTrue hc =>
    simp only [Bool.and_eq_true, decide_eq_true_eq] at hc
    simp only [Option.some.injEq] at h
    have hqq : q = (q.num : ℚ) := by
      conv_lhs => rw [← Rat.num_div_den q]
      rw [hc.1]
      simp
    rw [hqq] at hq
    have h1 : (1 : ℤ) ≤ q.num := by exact_mod_cast hq
    omega
  case isFalse => exact absurd h (by simp)

theorem effectiveNum_ge_one {dflt : ℚ} {q : Option String} {v : ℚ}
    (h : effectiveNum dflt q = .fin v) : 1 ≤ v :=
  jsMax1_ge_one h

theorem resolvePageLimit_pos {pageQ limitQ : Option String} {cp lp : ℕ}
    (h : resolvePageLimit pageQ limitQ = some (cp, lp)) : 1 ≤ cp ∧ 1 ≤ lp := by
  unfold resolvePageLimit at h
  rcases hp : effectiveNum 1 pageQ with _ | _ | _ | p <;>
    rcases hl : effectiveNum 10 limitQ with _ | _ | _ | l <;>
    rw [hp, hl] at h <;>
    dsimp only at h <;>
    try exact Option.noConfusion h
  rcases hrp : ratToNat p with _ | np <;> rw [hrp] at h
  · exact absurd h (by simp)
  rcases hrl : ratToNat l with _ | nl <;> rw [hrl] at h
  · exact absurd h (by simp)
  simp only [Option.some.injEq, Prod.mk.injEq] at h
  obtain ⟨rfl, rfl⟩ := h
  exact ⟨ratToNat_ge_one (effectiveNum_ge_one hp) hrp,
    ratToNat_ge_one (effectiveNum_ge_one hl) hrl⟩

/-! ## Route success-shape lemmas -/

theorem getUserDepartments_teacher {db : DB} {uid : String} {pq lq : Option String}
    {u : User} {cp lp : ℕ}
    (hu : db.users.find? (fun x => x.id == uid) = some u)
    (hrole : u.role = "teacher")
    (hrp : resolvePageLimit pq lq = some (cp, lp)) :
    getUserDepartments db uid pq lq = some (.ok
      (window ((cp - 1) * lp) lp
        (sortByCreatedDesc Department.createdAt (userDeptTeacherData db uid)))
      (paginationOf cp lp (userDeptTeacherCount db uid))) := by
  unfold getUserDepartments
  rw [hu]
  dsimp only
  rw [hrole]
  simp [hrp]

theorem getUserDepartments_student {db : DB} {uid : String} {pq lq : Option String}
    {u : User} {cp lp : ℕ}
    (hu : db.users.find? (fun x => x.id == uid) = some u)
    (hrole : u.role = "student")
    (hrp : resolvePageLimit pq lq = some (cp, lp)) :
    getUserDepartments db uid pq lq = some (.ok
      (window ((cp - 1) * lp) lp
        (sortByCreatedDesc Department.createdAt (userDeptStudentData db uid)))
      (paginationOf cp lp (userDeptStudentCount db uid))) := by
  unfold getUserDepartments
  rw [hu]
  dsimp only
  rw [hrole]
  simp [hrp]

theorem getUserSubjects_teacher {db : DB} {uid : String} {pq lq : Option String}
    {u : User} {cp lp : ℕ}
    (hu : db.users.find? (fun x => x.id == uid) = some u)
    (hrole : u.role = "teacher")
    (hrp : resolvePageLimit pq lq = some (cp, lp)) :
    getUserSubjects db uid pq lq = some (.ok
      (window ((cp - 1) * lp) lp
        (sortByCreatedDesc (fun x => x.1.createdAt) (userSubjTeacherGrouped db uid)))
      (paginationOf cp lp (userSubjTeacherCount db uid))) := by
  unfold getUserSubjects
  rw [hu]
  dsimp only
  rw [hrole]
  simp [hrp]

theorem getUserSubjects_student {db : DB} {uid : String} {pq lq : Option String}
    {u : User} {cp lp : ℕ}
    (hu : db.users.find? (fun x => x.id == uid) = some u)
    (hrole : u.role = "student")
    (hrp : resolvePageLimit pq lq = some (cp, lp)) :
    getUserSubjects db uid pq lq = some (.ok
      (window ((cp - 1) * lp) lp
        (sortByCreatedDesc (fun x => x.1.createdAt) (userSubjStudentGrouped db uid)))
      (paginationOf cp lp (userSubjStudentCount db uid))) := by
  unfold getUserSubjects
  rw [hu]
  dsimp only
  rw [hrole]
  simp [hrp]

theorem getSubjectUsers_teacher {db : DB} {idStr : String} {pq lq : Option String}
    {sid : ℚ} {cp lp : ℕ}
    (hsid : jsToNumber idStr = some sid)
    (hrp : resolvePageLimit pq lq = some (cp, lp)) :
    getSubjectUsers db idStr (some "teacher") pq lq = some (.ok
      (window ((cp - 1) * lp) lp
        (sortByCreatedDesc User.createdAt (subjectUsersTeacherData db "teacher" sid)))
      (paginationOf cp lp (subjectUsersTeacherCount db "teacher" sid))) := by
  unfold getSubjectUsers
  rw [hsid]
  simp [hrp]

theorem getSubjectUsers_student {db : DB} {idStr : String} {pq lq : Option String}
    {sid : ℚ} {cp lp : ℕ}
    (hsid : jsToNumber idStr = some sid)
    (hrp : resolvePageLimit pq lq = some (cp, lp)) :
    getSubjectUsers db idStr (some "student") pq lq = some (.ok
      (window ((cp - 1) * lp) lp
        (sortByCreatedDesc User.createdAt (subjectUsersStudentData db "student" sid)))
      (paginationOf cp lp (subjectUsersStudentCount db "student" sid))) := by
  unfold getSubjectUsers
  rw [hsid]
  simp [hrp]

theorem getClassUsers_teacher {db : DB} {idStr : String} {pq lq : Option String}
    {cid : ℚ} {cp lp : ℕ}
    (hcid : jsToNumber idStr = some cid)
    (hrp : resolvePageLimit pq lq = some (cp, lp)) :
    getClassUsers db idStr (some "teacher") pq lq = some (.ok
      (window ((cp - 1) * lp) lp
        (sortByCreatedDesc User.createdAt (classUsersTeacherData db "teacher" cid)))
      (paginationOf cp lp (classUsersTeacherCount db "teacher" cid))) := by
  unfold getClassUsers
  rw [hcid]
  simp [hrp]

theorem getClassUsers_student {db : DB} {idStr : String} {pq lq : Option String}
    {cid : ℚ} {cp lp : ℕ}
    (hcid : jsToNumber idStr = some cid)
    (hrp : resolvePageLimit pq lq = some (cp, lp)) :
    getClassUsers db idStr (some "student") pq lq = some (.ok
      (window ((cp - 1) * lp) lp
        (sortByCreatedDesc User.createdAt (classUsersStudentData db "student" cid)))
      (paginationOf cp lp (classUsersStudentCount db "student" cid))) := by
  unfold getClassUsers
  rw [hcid]
  simp [hrp]

theorem pag_getUsers {db : DB} {search roleQ pq lq : Option String}
    {data : List User} {pg : Pagination}
    (h : getUsers db search roleQ pq lq = some (.ok data pg)) :
    pg.totalPages = ⌈(pg.total : ℚ) / (pg.limit : ℚ)⌉₊ ∧ data.length ≤ pg.limit := by
  unfold getUsers at h
  cases hrp : resolvePageLimit pq lq with
  | none => rw [hrp] at h; exact absurd h (by simp)
  | some pl =>
    obtain ⟨cp, lp⟩ := pl
    rw [hrp] at h
    simp only [Option.some.injEq, ListResp.ok.injEq] at h
    obtain ⟨hdata, hpg⟩ := h
    subst hpg
    subst hdata
    refine ⟨?_, ?_⟩
    · exact ceilNat_eq_ceil _ _ (resolvePageLimit_pos hrp).2
    · exact length_window_le _ _ _

theorem pag_getUserDepartments {db : DB} {uid : String} {pq lq : Option String}
    {data : List Department} {pg : Pagination}
    (h : getUserDepartments db uid pq lq = some (.ok data pg)) :
    pg.totalPages = ⌈(pg.total : ℚ) / (pg.limit : ℚ)⌉₊ ∧ data.length ≤ pg.limit := by
  unfold getUserDepartments at h
  cases hu : db.users.find? (fun x => x.id == uid) with
  | none => rw [hu] at h; exact absurd h (by simp)
  | some u =>
    rw [hu] at h
    dsimp only at h
    by_cases hrt : (!(u.role == "teacher") && !(u.role == "student")) = true
    · rw [if_pos hrt] at h
      simp only [Option.some.injEq, ListResp.ok.injEq] at h
      obtain ⟨hdata, hpg⟩ := h
      subst hpg
      subst hdata
      refine ⟨by norm_num, by simp⟩
    · rw [if_neg hrt] at h
      cases hrp : resolvePageLimit pq lq with
      | none => rw [hrp] at h; exact absurd h (by simp)
      | some pl =>
        obtain ⟨cp, lp⟩ := pl
        rw [hrp] at h
        simp only [Option.some.injEq, ListResp.ok.injEq] at h
        obtain ⟨hdata, hpg⟩ := h
        subst hpg
        subst hdata
        exact ⟨ceilNat_eq_ceil _ _ (resolvePageLimit_pos hrp).2, length_window_le _ _ _⟩

theorem pag_getUserSubjects {db : DB} {uid : String} {pq lq : Option String}
    {data : List (Subject × Option Department)} {pg : Pagination}
    (h : getUserSubjects db uid pq lq = some (.ok data pg)) :
    pg.totalPages = ⌈(pg.total : ℚ) / (pg.limit : ℚ)⌉₊ ∧ data.length ≤ pg.limit := by
  unfold getUserSubjects at h
  cases hu : db.users.find? (fun x => x.id == uid) with
  | none => rw [hu] at h; exact absurd h (by simp)
  | some u =>
    rw [hu] at h
    dsimp only at h
    by_cases hrt : (!(u.role == "teacher") && !(u.role == "student")) = true
    · rw [if_pos hrt] at h
      simp only [Option.some.injEq, ListResp.ok.injEq] at h
      obtain ⟨hdata, hpg⟩ := h
      subst hpg
      subst hdata
      refine ⟨by norm_num, by simp⟩
    · rw [if_neg hrt] at h
      cases hrp : resolvePageLimit pq lq with
      | none => rw [hrp] at h; exact absurd h (by simp)
      | some pl =>
        obtain ⟨cp, lp⟩ := pl
        rw [hrp] at h
        simp only [Option.some.injEq, ListResp.ok.injEq] at h
        obtain ⟨hdata, hpg⟩ := h
        subst hpg
        subst hdata
        exact ⟨ceilNat_eq_ceil _ _ (resolvePageLimit_pos hrp).2, length_window_le _ _ _⟩

theorem pag_getSubjects {db : DB} {search departmentQ pq lq : Option String}
    {data : List (Subject × Option Department)} {pg : Pagination}
    (h : getSubjects db search departmentQ pq lq = some (.ok data pg)) :
    pg.totalPages = ⌈(pg.total : ℚ) / (pg.limit : ℚ)⌉₊ ∧ data.length ≤ pg.limit := by
  unfold getSubjects at h
  cases hrp : resolvePageLimit pq lq with
  | none => rw [hrp] at h; exact absurd h (by simp)
  | some pl =>
    obtain ⟨cp, lp⟩ := pl
    rw [hrp] at h
    simp only [Option.some.injEq, ListResp.ok.injEq] at h
    obtain ⟨hdata, hpg⟩ := h
    subst hpg
    subst hdata
    exact ⟨ceilNat_eq_ceil _ _ (resolvePageLimit_pos hrp).2, length_window_le _ _ _⟩

theorem pag_getClasses {db : DB} {search subjectQ teacherQ pq lq : Option String}
    {data : List ((Class × Option Subject) × Option User)} {pg : Pagination}
    (h : getClasses db search subjectQ teacherQ pq lq = some (.ok data pg)) :
    pg.totalPages = ⌈(pg.total : ℚ) / (pg.limit : ℚ)⌉₊ ∧ data.length ≤ pg.limit := by
  unfold getClasses at h
  cases hrp : resolvePageLimit pq lq with
  | none => rw [hrp] at h; exact absurd h (by simp)
  | some pl =>
    obtain ⟨cp, lp⟩ := pl
    rw [hrp] at h
    simp only [Option.some.injEq, ListResp.ok.injEq] at h
    obtain ⟨hdata, hpg⟩ := h
    subst hpg
    subst hdata
    exact ⟨ceilNat_eq_ceil _ _ (resolvePageLimit_pos hrp).2, length_window_le _ _ _⟩

theorem pag_getSubjectClasses {db : DB} {idStr : String} {pq lq : Option String}
    {data : List (Class × Option User)} {pg : Pagination}
    (h : getSubjectClasses db idStr pq lq = some (.ok data pg)) :
    pg.totalPages = ⌈(pg.total : ℚ) / (pg.limit : ℚ)⌉₊ ∧ data.length ≤ pg.limit := by
  unfold getSubjectClasses at h
  cases hsid : jsToNumber idStr with
  | none => rw [hsid] at h; exact absurd h (by simp)
  | some sid =>
    rw [hsid] at h
    dsimp only at h
    cases hrp : resolvePageLimit pq lq with
    | none => rw [hrp] at h; exact absurd h (by simp)
    | some pl =>
      obtain ⟨cp, lp⟩ := pl
      rw [hrp] at h
      simp only [Option.some.injEq, ListResp.ok.injEq] at h
      obtain ⟨hdata, hpg⟩ := h
      subst hpg
      subst hdata
      exact ⟨ceilNat_eq_ceil _ _ (resolvePageLimit_pos hrp).2, length_window_le _ _ _⟩

theorem pag_getSubjectUsers {db : DB} {idStr : String} {roleQ pq lq : Option String}
    {data : List User} {pg : Pagination}
    (h : getSubjectUsers db idStr roleQ pq lq = some (.ok data pg)) :
    pg.totalPages = ⌈(pg.total : ℚ) / (pg.limit : ℚ)⌉₊ ∧ data.length ≤ pg.limit := by
  unfold getSubjectUsers at h
  cases hsid : jsToNumber idStr with
  | none => rw [hsid] at h; exact absurd h (by simp)
  | some sid =>
    rw [hsid] at h
    dsimp only at h
    by_cases hrt : (!(roleQ == some "teacher") && !(roleQ == some "student")) = true
    · rw [if_pos hrt] at h
      exact absurd h (by simp)
    · rw [if_neg hrt] at h
      cases hrp : resolvePageLimit pq lq with
      | none => rw [hrp] at h; exact absurd h (by simp)
      | some pl =>
        obtain ⟨cp, lp⟩ := pl
        rw [hrp] at h
        simp only [Option.some.injEq, ListResp.ok.injEq] at h
        obtain ⟨hdata, hpg⟩ := h
        subst hpg
        subst hdata
        exact ⟨ceilNat_eq_ceil _ _ (resolvePageLimit_pos hrp).2, length_window_le _ _ _⟩

theorem pag_getClassUsers {db : DB} {idStr : String} {roleQ pq lq : Option String}
    {data : List User} {pg : Pagination}
    (h : getClassUsers db idStr roleQ pq lq = some (.ok data pg)) :
    pg.totalPages = ⌈(pg.total : ℚ) / (pg.limit : ℚ)⌉₊ ∧ data.length ≤ pg.limit := by
  unfold getClassUsers at h
  cases hcid : jsToNumber idStr with
  | none => rw [hcid] at h; exact absurd h (by simp)
  | some cid =>
    rw [hcid] at h
    dsimp only at h
    by_cases hrt : (!(roleQ == some "teacher") && !(roleQ == some "student")) = true
    · rw [if_pos hrt] at h
      exact absurd h (by simp)
    · rw [if_neg hrt] at h
      cases hrp : resolvePageLimit pq lq with
      | none => rw [hrp] at h; exact absurd h (by simp)
      | some pl =>
        obtain ⟨cp, lp⟩ := pl
        rw [hrp] at h
        simp only [Option.some.injEq, ListResp.ok.injEq] at h
        obtain ⟨hdata, hpg⟩ := h
        subst hpg
        subst hdata
        exact ⟨ceilNat_eq_ceil _ _ (resolvePageLimit_pos hrp).2, length_window_le _ _ _⟩

/-! ## Invite-code lemmas -/

theorem frac36Digits_lt_36 :
    ∀ (fuel n : ℕ), n < 2 ^ 53 → ∀ d ∈ frac36Digits fuel n, d < 36 := by
  intro fuel
  induction fuel with
  | zero =>
    intro n hn d hd
    simp [frac36Digits] at hd
  | succ f ih =>
    intro n hn d hd
    rw [frac36Digits] at hd
    by_cases h0 : n = 0
    · rw [if_pos h0] at hd
      simp at hd
    · rw [if_neg h0] at hd
      rcases List.mem_cons.1 hd with rfl | hd2
      · exact Nat.div_lt_of_lt_mul (by omega)
      · exact ih ((n * 36) % 2 ^ 53) (Nat.mod_lt _ (by positivity)) d hd2

theorem digitChar36_base36 {d : ℕ} (hd : d < 36) :
    ((digitChar36 d).isDigit || ('a' ≤ digitChar36 d && digitChar36 d ≤ 'z')) = true := by
  interval_cases d <;> decide

theorem inviteCodeOf_length_le (k : ℕ) : (inviteCodeOf k).length ≤ 7 := by
  show (((jsRandToString36 k).toList.drop 2).take (9 - 2)).length ≤ 7
  rw [List.length_take]
  exact le_trans (Nat.min_le_left _ _) (by norm_num)

theorem inviteCodeOf_base36 (k : ℕ) (hk : k < 2 ^ 53) :
    (inviteCodeOf k).toList.all (fun c => c.isDigit || ('a' ≤ c && c ≤ 'z')) = true := by
  unfold inviteCodeOf jsSubstring jsRandToString36
  by_cases h0 : k = 0
  · rw [if_pos h0]
    decide
  · rw [if_neg h0]
    apply List.all_eq_true.2
    intro c hc
    have hc2 : c ∈ (frac36Digits 27 k).map digitChar36 := by
      have : c ∈ ((('0' :: '.' :: (frac36Digits 27 k).map digitChar36).drop 2).take (9 - 2)) := hc
      exact (List.take_sublist _ _).subset this
    obtain ⟨d, hd, rfl⟩ := List.mem_map.1 hc2
    exact digitChar36_base36 (frac36Digits_lt_36 27 k hk d hd)

/-! ## Claim theorems -/

/-- C3: for every successful list response of every list endpoint
(top-level and nested), the returned pagination satisfies totalPages =
ceil(total / limit) for the effective limit, and the number of items in
data is at most that limit. -/
theorem C3_pagination_envelope :
    (∀ (db : DB) (search roleQ pq lq : Option String) (data : List User) (pg : Pagination),
      getUsers db search roleQ pq lq = some (.ok data pg) →
      pg.totalPages = ⌈(pg.total : ℚ) / (pg.limit : ℚ)⌉₊ ∧ data.length ≤ pg.limit) ∧
    (∀ (db : DB) (uid : String) (pq lq : Option String) (data : List Department)
      (pg : Pagination), getUserDepartments db uid pq lq = some (.ok data pg) →
      pg.totalPages = ⌈(pg.total : ℚ) / (pg.limit : ℚ)⌉₊ ∧ data.length ≤ pg.limit) ∧
    (∀ (db : DB) (uid : String) (pq lq : Option String)
      (data : List (Subject × Option Department)) (pg : Pagination),
      getUserSubjects db uid pq lq = some (.ok data pg) →
      pg.totalPages = ⌈(pg.total : ℚ) / (pg.limit : ℚ)⌉₊ ∧ data.length ≤ pg.limit) ∧
    (∀ (db : DB) (search departmentQ pq lq : Option String)
      (data : List (Subject × Option Department)) (pg : Pagination),
      getSubjects db search departmentQ pq lq = some (.ok data pg) →
      pg.totalPages = ⌈(pg.total : ℚ) / (pg.limit : ℚ)⌉₊ ∧ data.length ≤ pg.limit) ∧
    (∀ (db : DB) (idStr : String) (pq lq : Option String)
      (data : List (Class × Option User)) (pg : Pagination),
      getSubjectClasses db idStr pq lq = some (.ok data pg) →
      pg.totalPages = ⌈(pg.total : ℚ) / (pg.limit : ℚ)⌉₊ ∧ data.length ≤ pg.limit) ∧
    (∀ (db : DB) (idStr : String) (roleQ pq lq : Option String) (data : List User)
      (pg : Pagination), getSubjectUsers db idStr roleQ pq lq = some (.ok data pg) →
      pg.totalPages = ⌈(pg.total : ℚ) / (pg.limit : ℚ)⌉₊ ∧ data.length ≤ pg.limit) ∧
    (∀ (db : DB) (search subjectQ teacherQ pq lq : Option String)
      (data : List ((Class × Option Subject) × Option User)) (pg : Pagination),
      getClasses db search subjectQ teacherQ pq lq = some (.ok data pg) →
      pg.totalPages = ⌈(pg.total : ℚ) / (pg.limit : ℚ)⌉₊ ∧ data.length ≤ pg.limit) ∧
    (∀ (db : DB) (idStr : String) (roleQ pq lq : Option String) (data : List User)
      (pg : Pagination), getClassUsers db idStr roleQ pq lq = some (.ok data pg) →
      pg.totalPages = ⌈(pg.total : ℚ) / (pg.limit : ℚ)⌉₊ ∧ data.length ≤ pg.limit) := by
  refine ⟨?_, ?_, ?_, ?_, ?_, ?_, ?_, ?_⟩
  · intro db search roleQ pq lq data pg h
    exact pag_getUsers h
  · intro db uid pq lq data pg h
    exact pag_getUserDepartments h
  · intro db uid pq lq data pg h
    exact pag_getUserSubjects h
  · intro db search departmentQ pq lq data pg h
    exact pag_getSubjects h
  · intro db idStr pq lq data pg h
    exact pag_getSubjectClasses h
  · intro db idStr roleQ pq lq data pg h
    exact pag_getSubjectUsers h
  · intro db search subjectQ teacherQ pq lq data pg h
    exact pag_getClasses h
  · intro db idStr roleQ pq lq data pg h
    exact pag_getClassUsers h

/-- Witness for C3 at the fan-out database with default pagination. -/
theorem C3_pagination_envelope_witness :
    getUsers dbFan none none none none = some (.ok [userA, userE, userT] ⟨1, 10, 3, 1⟩) ∧
    ((⟨1, 10, 3, 1⟩ : Pagination).totalPages =
      ⌈((⟨1, 10, 3, 1⟩ : Pagination).total : ℚ) / ((⟨1, 10, 3, 1⟩ : Pagination).limit : ℚ)⌉₊ ∧
      [userA, userE, userT].length ≤ (⟨1, 10, 3, 1⟩ : Pagination).limit) := by
  have hresp : getUsers dbFan none none none none =
      some (.ok [userA, userE, userT] ⟨1, 10, 3, 1⟩) := by decide
  exact ⟨hresp, C3_pagination_envelope.1 dbFan none none none none _ _ hresp⟩

/-- C8: when the insert of POST /subjects or POST /classes returns no
row, the endpoint responds 500 with an error message body and never a
201 created response; the handlers feed the insert result of a
successful insert into the same tail. -/
theorem C8_insert_failure_500 :
    insertResponse none "Failed to create subject" = .err 500 "Failed to create subject" ∧
    insertResponse none "Failed to create class" = .err 500 "Failed to create class" ∧
    (∀ (msg : String) (id : ℕ), insertResponse none msg ≠ .created id) ∧
    (∀ (db : DB) (now : ℕ) (body : SubjectBody),
      (postSubjects db now body).2 = insertResponse (some db.nextSubjectId) "Failed to create subject") ∧
    (∀ (db : DB) (now k : ℕ) (body : ClassBody),
      (postClasses db now k body).2 = insertResponse (some db.nextClassId) "Failed to create class") := by
  refine ⟨rfl, rfl, ?_, ?_, ?_⟩
  · intro msg id h
    simp [insertResponse] at h
  · intro db now body
    rfl
  · intro db now k body
    rfl

/-- C9: the user routes perform no numeric validation of the id path
parameter: any id string is used directly in the lookup, a missing user
yields 404, and these routes never answer 400. -/
theorem C9_user_routes_no_numeric_validation :
    ∀ (db : DB) (uid : String) (pq lq : Option String),
      (db.users.find? (fun u => u.id == uid) = none →
        getUserById db uid = .err 404 "User not found" ∧
        getUserDepartments db uid pq lq = some (.err 404 "User not found") ∧
        getUserSubjects db uid pq lq = some (.err 404 "User not found")) ∧
      (∀ m, getUserById db uid ≠ .err 400 m) ∧
      (∀ m, getUserDepartments db uid pq lq ≠ some (.err 400 m)) ∧
      (∀ m, getUserSubjects db uid pq lq ≠ some (.err 400 m)) := by
  intro db uid pq lq
  refine ⟨?_, ?_, ?_, ?_⟩
  · intro hfind
    refine ⟨?_, ?_, ?_⟩
    · unfold getUserById
      rw [hfind]
    · unfold getUserDepartments
      rw [hfind]
    · unfold getUserSubjects
      rw [hfind]
  · intro m h
    unfold getUserById at h
    cases hfind : db.users.find? (fun u => u.id == uid) with
    | none => rw [hfind] at h; exact absurd h (by simp)
    | some u => rw [hfind] at h; exact absurd h (by simp)
  · intro m h
    unfold getUserDepartments at h
    cases hfind : db.users.find? (fun u => u.id == uid) with
    | none => rw [hfind] at h; exact absurd h (by simp)
    | some u =>
      rw [hfind] at h
      dsimp only at h
      by_cases hrt : (!(u.role == "teacher") && !(u.role == "student")) = true
      · rw [if_pos hrt] at h
        exact absurd h (by simp)
      · rw [if_neg hrt] at h
        cases hrp : resolvePageLimit pq lq with
        | none => rw [hrp] at h; exact absurd h (by simp)
        | some pl =>
          obtain ⟨cp, lp⟩ := pl
          rw [hrp] at h
          exact absurd h (by simp)
  · intro m h
    unfold getUserSubjects at h
    cases hfind : db.users.find? (fun u => u.id == uid) with
    | none => rw [hfind] at h; exact absurd h (by simp)
    | some u =>
      rw [hfind] at h
      dsimp only at h
      by_cases hrt : (!(u.role == "teacher") && !(u.role == "student")) = true
      · rw [if_pos hrt] at h
        exact absurd h (by simp)
      · rw [if_neg hrt] at h
        cases hrp : resolvePageLimit pq lq with
        | none => rw [hrp] at h; exact absurd h (by simp)
        | some pl =>
          obtain ⟨cp, lp⟩ := pl
          rw [hrp] at h
          exact absurd h (by simp)

/-- Witness for C9 at the empty database and a non-numeric id string. -/
theorem C9_user_routes_no_numeric_validation_witness :
    dbEmpty.users.find? (fun u => u.id == "ghost") = none ∧
    getUserById dbEmpty "ghost" = .err 404 "User not found" ∧
    getUserDepartments dbEmpty "ghost" (some "2") none = some (.err 404 "User not found") := by
  have hf : dbEmpty.users.find? (fun u => u.id == "ghost") = none := rfl
  have h := (C9_user_routes_no_numeric_validation dbEmpty "ghost" (some "2") none).1 hf
  exact ⟨hf, h.1, h.2.1⟩

/-- C10: POST /classes ignores client-supplied inviteCode and schedules:
the stored record always carries the server-generated code and an empty
schedules list, and two bodies agreeing on the used fields produce the
same result. -/
theorem C10_post_classes_ignores_client_fields :
    ∀ (db : DB) (now k : ℕ) (body b1 b2 : ClassBody),
      (∃ rec, (postClasses db now k body).1.classes = db.classes ++ [rec] ∧
        rec.inviteCode = inviteCodeOf k ∧ rec.schedules = []) ∧
      (usedClassFields b1 = usedClassFields b2 →
        postClasses db now k b1 = postClasses db now k b2) := by
  intro db now k body b1 b2
  constructor
  · exact ⟨_, rfl, rfl, rfl⟩
  · intro h
    simp only [usedClassFields, Prod.mk.injEq] at h
    obtain ⟨h1, h2, h3, h4, h5, h6, h7, h8⟩ := h
    unfold postClasses
    rw [h1, h2, h3, h4, h5, h6, h7, h8]

/-- Witness for C10: two bodies differing only in inviteCode and
schedules produce identical results. -/
theorem C10_post_classes_ignores_client_fields_witness :
    usedClassFields bodyW1 = usedClassFields bodyW2 ∧
    postClasses dbEmpty 0 5 bodyW1 = postClasses dbEmpty 0 5 bodyW2 :=
  ⟨rfl, (C10_post_classes_ignores_client_fields dbEmpty 0 5 bodyW1 bodyW1 bodyW2).2 rfl⟩

/-- C4: a role query value that is not exactly teacher or student yields
400 on GET /subjects/:id/users and GET /classes/:id/users, whereas on the
GET /users/:id/... listings an existing user whose stored role is neither
teacher nor student yields 200 with the empty page
(data [], pagination (1, 0, 0, 0)) regardless of page and limit. -/
theorem C4_role_validation_asymmetry :
    ∀ (db : DB) (uid idStr : String) (roleQ pq lq : Option String),
      (roleQ ≠ some "teacher" → roleQ ≠ some "student" →
        (∃ m, getSubjectUsers db idStr roleQ pq lq = some (.err 400 m)) ∧
        (∃ m, getClassUsers db idStr roleQ pq lq = some (.err 400 m))) ∧
      (∀ u, db.users.find? (fun x => x.id == uid) = some u →
        u.role ≠ "teacher" → u.role ≠ "student" →
        getUserDepartments db uid pq lq = some (.ok [] ⟨1, 0, 0, 0⟩) ∧
        getUserSubjects db uid pq lq = some (.ok [] ⟨1, 0, 0, 0⟩)) := by
  intro db uid idStr roleQ pq lq
  constructor
  · intro hr1 hr2
    have hrt : (!(roleQ == some "teacher") && !(roleQ == some "student")) = true := by
      have e1 : (roleQ == some "teacher") = false := beq_eq_false_iff_ne.2 hr1
      have e2 : (roleQ == some "student") = false := beq_eq_false_iff_ne.2 hr2
      rw [e1, e2]
      rfl
    constructor
    · unfold getSubjectUsers
      cases hsid : jsToNumber idStr with
      | none => exact ⟨"Invalid subject id", rfl⟩
      | some sid =>
        refine ⟨"Invalid role", ?_⟩
        dsimp only
        rw [if_pos hrt]
    · unfold getClassUsers
      cases hcid : jsToNumber idStr with
      | none => exact ⟨"Invalid class id", rfl⟩
      | some cid =>
        refine ⟨"Invalid role", ?_⟩
        dsimp only
        rw [if_pos hrt]
  · intro u hu hr1 hr2
    have hrt : (!(u.role == "teacher") && !(u.role == "student")) = true := by
      have e1 : (u.role == "teacher") = false := beq_eq_false_iff_ne.2 hr1
      have e2 : (u.role == "student") = false := beq_eq_false_iff_ne.2 hr2
      rw [e1, e2]
      rfl
    constructor
    · unfold getUserDepartments
      rw [hu]
      dsimp only
      rw [if_pos hrt]
    · unfold getUserSubjects
      rw [hu]
      dsimp only
      rw [if_pos hrt]

/-- Witness for C4: an admin role value on the class route and the stored
admin user on the user routes, with a nontrivial requested page and
limit. -/
theorem C4_role_validation_asymmetry_witness :
    (some "admin" ≠ some "teacher" ∧ some "admin" ≠ some "student" ∧
      dbFan.users.find? (fun x => x.id == "A") = some userA ∧
      userA.role ≠ "teacher" ∧ userA.role ≠ "student") ∧
    (∃ m, getClassUsers dbFan "1" (some "admin") (some "5") (some "7") = some (.err 400 m)) ∧
    getUserDepartments dbFan "A" (some "5") (some "7") = some (.ok [] ⟨1, 0, 0, 0⟩) := by
  have h1 := (C4_role_validation_asymmetry dbFan "A" "1" (some "admin") (some "5")
    (some "7")).1 (by decide) (by decide)
  have h2 := (C4_role_validation_asymmetry dbFan "A" "1" (some "admin") (some "5")
    (some "7")).2 userA (by decide) (by decide) (by decide)
  exact ⟨⟨by decide, by decide, by decide, by decide, by decide⟩, h1.2, h2.1⟩

/-- C1: for every nested role-dependent listing, the total in the
pagination envelope of a successful response equals the number of
distinct root rows matching the filter predicate (a root matching when
some join chain reaches it), even when the join chain fans out. -/
theorem C1_count_distinct_agreement :
    ∀ (db : DB) (uid idStr : String) (pq lq : Option String),
      (∀ u data pg, db.users.find? (fun x => x.id == uid) = some u →
        getUserDepartments db uid pq lq = some (.ok data pg) →
        (u.role = "teacher" → pg.total = specUserDeptTeacherTotal db uid) ∧
        (u.role = "student" → pg.total = specUserDeptStudentTotal db uid)) ∧
      (∀ u data pg, db.users.find? (fun x => x.id == uid) = some u →
        getUserSubjects db uid pq lq = some (.ok data pg) →
        (u.role = "teacher" → pg.total = specUserSubjTeacherTotal db uid) ∧
        (u.role = "student" → pg.total = specUserSubjStudentTotal db uid)) ∧
      (∀ sid data pg, jsToNumber idStr = some sid →
        (getSubjectUsers db idStr (some "teacher") pq lq = some (.ok data pg) →
          pg.total = specSubjectUsersTeacherTotal db "teacher" sid) ∧
        (getSubjectUsers db idStr (some "student") pq lq = some (.ok data pg) →
          pg.total = specSubjectUsersStudentTotal db "student" sid)) ∧
      (∀ cid data pg, jsToNumber idStr = some cid →
        (getClassUsers db idStr (some "teacher") pq lq = some (.ok data pg) →
          pg.total = specClassUsersTeacherTotal db "teacher" cid) ∧
        (getClassUsers db idStr (some "student") pq lq = some (.ok data pg) →
          pg.total = specClassUsersStudentTotal db "student" cid)) := by
  intro db uid idStr pq lq
  refine ⟨?_, ?_, ?_, ?_⟩
  · intro u data pg hu hresp
    constructor
    · intro hrole
      cases hrp : resolvePageLimit pq lq with
      | none =>
        exfalso
        unfold getUserDepartments at hresp
        rw [hu] at hresp
        dsimp only at hresp
        rw [hrole] at hresp
        simp [hrp] at hresp
      | some pl =>
        obtain ⟨cp, lp⟩ := pl
        rw [getUserDepartments_teacher hu hrole hrp] at hresp
        simp only [Option.some.injEq, ListResp.ok.injEq] at hresp
        rw [← hresp.2]
        exact userDeptTeacherCount_eq db uid
    · intro hrole
      cases hrp : resolvePageLimit pq lq with
      | none =>
        exfalso
        unfold getUserDepartments at hresp
        rw [hu] at hresp
        dsimp only at hresp
        rw [hrole] at hresp
        simp [hrp] at hresp
      | some pl =>
        obtain ⟨cp, lp⟩ := pl
        rw [getUserDepartments_student hu hrole hrp] at hresp
        simp only [Option.some.injEq, ListResp.ok.injEq] at hresp
        rw [← hresp.2]
        exact userDeptStudentCount_eq db uid
  · intro u data pg hu hresp
    constructor
    · intro hrole
      cases hrp : resolvePageLimit pq lq with
      | none =>
        exfalso
        unfold getUserSubjects at hresp
        rw [hu] at hresp
        dsimp only at hresp
        rw [hrole] at hresp
        simp [hrp] at hresp
      | some pl =>
        obtain ⟨cp, lp⟩ := pl
        rw [getUserSubjects_teacher hu hrole hrp] at hresp
        simp only [Option.some.injEq, ListResp.ok.injEq] at hresp
        rw [← hresp.2]
        exact userSubjTeacherCount_eq db uid
    · intro hrole
      cases hrp : resolvePageLimit pq lq with
      | none =>
        exfalso
        unfold getUserSubjects at hresp
        rw [hu] at hresp
        dsimp only at hresp
        rw [hrole] at hresp
        simp [hrp] at hresp
      | some pl =>
        obtain ⟨cp, lp⟩ := pl
        rw [getUserSubjects_student hu hrole hrp] at hresp
        simp only [Option.some.injEq, ListResp.ok.injEq] at hresp
        rw [← hresp.2]
        exact userSubjStudentCount_eq db uid
  · intro sid data pg hsid
    constructor
    · intro hresp
      cases hrp : resolvePageLimit pq lq with
      | none =>
        exfalso
        unfold getSubjectUsers at hresp
        rw [hsid] at hresp
        simp [hrp] at hresp
      | some pl =>
        obtain ⟨cp, lp⟩ := pl
        rw [getSubjectUsers_teacher hsid hrp] at hresp
        simp only [Option.some.injEq, ListResp.ok.injEq] at hresp
        rw [← hresp.2]
        exact subjectUsersTeacherCount_eq db "teacher" sid
    · intro hresp
      cases hrp : resolvePageLimit pq lq with
      | none =>
        exfalso
        unfold getSubjectUsers at hresp
        rw [hsid] at hresp
        simp [hrp] at hresp
      | some pl =>
        obtain ⟨cp, lp⟩ := pl
        rw [getSubjectUsers_student hsid hrp] at hresp
        simp only [Option.some.injEq, ListResp.ok.injEq] at hresp
        rw [← hresp.2]
        exact subjectUsersStudentCount_eq db "student" sid
  · intro cid data pg hcid
    constructor
    · intro hresp
      cases hrp : resolvePageLimit pq lq with
      | none =>
        exfalso
        unfold getClassUsers at hresp
        rw [hcid] at hresp
        simp [hrp] at hresp
      | some pl =>
        obtain ⟨cp, lp⟩ := pl
        rw [getClassUsers_teacher hcid hrp] at hresp
        simp only [Option.some.injEq, ListResp.ok.injEq] at hresp
        rw [← hresp.2]
        exact classUsersTeacherCount_eq db "teacher" cid
    · intro hresp
      cases hrp : resolvePageLimit pq lq with
      | none =>
        exfalso
        unfold getClassUsers at hresp
        rw [hcid] at hresp
        simp [hrp] at hresp
      | some pl =>
        obtain ⟨cp, lp⟩ := pl
        rw [getClassUsers_student hcid hrp] at hresp
        simp only [Option.some.injEq, ListResp.ok.injEq] at hresp
        rw [← hresp.2]
        exact classUsersStudentCount_eq db "student" cid

/-- Witness for C1 at the fan-out regression database: the teacher
departments listing joins to six rows and yet reports total 1. -/
theorem C1_count_distinct_agreement_witness :
    (dbFan.users.find? (fun x => x.id == "T") = some userT ∧
      getUserDepartments dbFan "T" none none = some (.ok [deptW] ⟨1, 10, 1, 1⟩) ∧
      userT.role = "teacher") ∧
    (userDeptTeacherRows dbFan "T").length = 6 ∧
    (⟨1, 10, 1, 1⟩ : Pagination).total = specUserDeptTeacherTotal dbFan "T" := by
  have hu : dbFan.users.find? (fun x => x.id == "T") = some userT := by decide
  have hresp : getUserDepartments dbFan "T" none none =
      some (.ok [deptW] ⟨1, 10, 1, 1⟩) := by decide
  refine ⟨⟨hu, hresp, rfl⟩, by decide, ?_⟩
  exact ((C1_count_distinct_agreement dbFan "T" "1" none none).1 userT [deptW]
    ⟨1, 10, 1, 1⟩ hu hresp).1 rfl

/-- C2: GET /users/:id/subjects returns, for a teacher, exactly the
subjects with at least one class whose teacherId is the user, and, for a
student, exactly the subjects with at least one class the user is
enrolled in; under the primary-key invariants each qualifying subject
appears at most once, and every returned row comes from that duplicate
free grouped set. -/
theorem C2_role_based_subject_selection :
    ∀ (db : DB) (uid : String),
      (∀ s : Subject, (∃ od, (s, od) ∈ userSubjTeacherGrouped db uid) ↔
        (s ∈ db.subjects ∧
          db.classes.any (fun c => c.subjectId == s.id && c.teacherId == uid) = true)) ∧
      (∀ s : Subject, (∃ od, (s, od) ∈ userSubjStudentGrouped db uid) ↔
        (s ∈ db.subjects ∧
          db.classes.any (fun c => c.subjectId == s.id &&
            db.enrollments.any (fun e => e.classId == c.id && e.studentId == uid)) = true)) ∧
      ((db.subjects.map Subject.id).Nodup → (db.departments.map Department.id).Nodup →
        ((userSubjTeacherGrouped db uid).map (fun x => x.1.id)).Nodup ∧
        ((userSubjStudentGrouped db uid).map (fun x => x.1.id)).Nodup) ∧
      (∀ (pq lq : Option String) u data pg,
        db.users.find? (fun x => x.id == uid) = some u →
        getUserSubjects db uid pq lq = some (.ok data pg) →
        (u.role = "teacher" → ∀ x ∈ data, x ∈ userSubjTeacherGrouped db uid) ∧
        (u.role = "student" → ∀ x ∈ data, x ∈ userSubjStudentGrouped db uid) ∧
        ((db.subjects.map Subject.id).Nodup → (db.departments.map Department.id).Nodup →
          (u.role = "teacher" ∨ u.role = "student") →
          (data.map (fun x => x.1.id)).Nodup)) := by
  intro db uid
  refine ⟨?_, ?_, ?_, ?_⟩
  · intro s
    exact exists_snd_userSubjTeacherGrouped
  · intro s
    exact exists_snd_userSubjStudentGrouped
  · intro hs hd
    exact ⟨nodup_userSubjTeacherGrouped_ids hs hd, nodup_userSubjStudentGrouped_ids hs hd⟩
  · intro pq lq u data pg hu hresp
    refine ⟨?_, ?_, ?_⟩
    · intro hrole x hx
      cases hrp : resolvePageLimit pq lq with
      | none =>
        exfalso
        unfold getUserSubjects at hresp
        rw [hu] at hresp
        dsimp only at hresp
        rw [hrole] at hresp
        simp [hrp] at hresp
      | some pl =>
        obtain ⟨cp, lp⟩ := pl
        rw [getUserSubjects_teacher hu hrole hrp] at hresp
        simp only [Option.some.injEq, ListResp.ok.injEq] at hresp
        rw [← hresp.1] at hx
        exact mem_window_sort hx
    · intro hrole x hx
      cases hrp : resolvePageLimit pq lq with
      | none =>
        exfalso
        unfold getUserSubjects at hresp
        rw [hu] at hresp
        dsimp only at hresp
        rw [hrole] at hresp
        simp [hrp] at hresp
      | some pl =>
        obtain ⟨cp, lp⟩ := pl
        rw [getUserSubjects_student hu hrole hrp] at hresp
        simp only [Option.some.injEq, ListResp.ok.injEq] at hresp
        rw [← hresp.1] at hx
        exact mem_window_sort hx
    · intro hs hd hor
      rcases hor with hrole | hrole
      · cases hrp : resolvePageLimit pq lq with
        | none =>
          exfalso
          unfold getUserSubjects at hresp
          rw [hu] at hresp
          dsimp only at hresp
          rw [hrole] at hresp
          simp [hrp] at hresp
        | some pl =>
          obtain ⟨cp, lp⟩ := pl
          rw [getUserSubjects_teacher hu hrole hrp] at hresp
          simp only [Option.some.injEq, ListResp.ok.injEq] at hresp
          rw [← hresp.1]
          exact nodup_map_window_sort (nodup_userSubjTeacherGrouped_ids hs hd)
      · cases hrp : resolvePageLimit pq lq with
        | none =>
          exfalso
          unfold getUserSubjects at hresp
          rw [hu] at hresp
          dsimp only at hresp
          rw [hrole] at hresp
          simp [hrp] at hresp
        | some pl =>
          obtain ⟨cp, lp⟩ := pl
          rw [getUserSubjects_student hu hrole hrp] at hresp
          simp only [Option.some.injEq, ListResp.ok.injEq] at hresp
          rw [← hresp.1]
          exact nodup_map_window_sort (nodup_userSubjStudentGrouped_ids hs hd)

/-- Witness for C2: the student enrolled in two classes of the same
subject sees that subject exactly once. -/
theorem C2_role_based_subject_selection_witness :
    ((dbFan.subjects.map Subject.id).Nodup ∧
      (dbFan.departments.map Department.id).Nodup ∧
      dbFan.users.find? (fun x => x.id == "E") = some userE ∧
      userE.role = "student" ∧
      getUserSubjects dbFan "E" none none =
        some (.ok [(subjW1, some deptW)] ⟨1, 10, 1, 1⟩)) ∧
    (∀ x ∈ [(subjW1, some deptW)], x ∈ userSubjStudentGrouped dbFan "E") ∧
    ([(subjW1, some deptW)].map (fun x => x.1.id)).Nodup := by
  have hs : (dbFan.subjects.map Subject.id).Nodup := by decide
  have hd : (dbFan.departments.map Department.id).Nodup := by decide
  have hu : dbFan.users.find? (fun x => x.id == "E") = some userE := by decide
  have hresp : getUserSubjects dbFan "E" none none =
      some (.ok [(subjW1, some deptW)] ⟨1, 10, 1, 1⟩) := by decide
  have h := (C2_role_based_subject_selection dbFan "E").2.2.2 none none userE
    [(subjW1, some deptW)] ⟨1, 10, 1, 1⟩ hu hresp
  exact ⟨⟨hs, hd, hu, rfl, hresp⟩, h.2.1 rfl, h.2.2 hs hd (Or.inr rfl)⟩

/-- C5 counterexample: when the random double is exactly zero,
(0).toString(36) is the one-character string 0, whose substring(2, 9) is
empty, so the stored invite code has length 0, not 7; the request still
succeeds with 201. -/
theorem C5_counterexample_zero_random :
    (postClasses dbEmpty 0 0 bodyW2).1.classes.map Class.inviteCode = [""] ∧
    (postClasses dbEmpty 0 0 bodyW2).2 = CreateResp.created 1 ∧
    ("" : String).length ≠ 7 := by
  refine ⟨by decide, by decide, by decide⟩

/-- C5 amended: creating a class stores one new record whose id is
returned with the 201 response; the record has an empty schedule list and
an alphanumeric (base-36) invite code of length at most 7 (exactly 7 only
when the base-36 expansion of the random value is long enough), for every
value of the random source. -/
theorem C5_amended_create_class :
    ∀ (db : DB) (now k : ℕ) (body : ClassBody), k < 2 ^ 53 →
      ∃ rec, (postClasses db now k body).1.classes = db.classes ++ [rec] ∧
        (postClasses db now k body).2 = CreateResp.created rec.id ∧
        rec.id = db.nextClassId ∧
        rec.schedules = [] ∧
        rec.inviteCode = inviteCodeOf k ∧
        rec.inviteCode.length ≤ 7 ∧
        rec.inviteCode.toList.all (fun c => c.isDigit || ('a' ≤ c && c ≤ 'z')) = true := by
  intro db now k body hk
  exact ⟨_, rfl, rfl, rfl, rfl, rfl, inviteCodeOf_length_le k, inviteCodeOf_base36 k hk⟩

/-- Witness for the amended C5 at a concrete random numerator. -/
theorem C5_amended_create_class_witness :
    12345 < 2 ^ 53 ∧
    (∃ rec, (postClasses dbEmpty 0 12345 bodyW2).1.classes = dbEmpty.classes ++ [rec] ∧
      (postClasses dbEmpty 0 12345 bodyW2).2 = CreateResp.created rec.id ∧
      rec.id = dbEmpty.nextClassId ∧
      rec.schedules = [] ∧
      rec.inviteCode = inviteCodeOf 12345 ∧
      rec.inviteCode.length ≤ 7 ∧
      rec.inviteCode.toList.all (fun c => c.isDigit || ('a' ≤ c && c ≤ 'z')) = true) :=
  ⟨by norm_num, C5_amended_create_class dbEmpty 0 12345 bodyW2 (by norm_num)⟩

/-- C6 counterexample: a non-numeric limit string coerces to NaN, which
Math.max propagates instead of flooring to 1, and a non-integer numeric
string keeps its fractional value instead of being coerced to an
integer. -/
theorem C6_counterexample_coercion :
    effectiveNum 1 (some "abc") = .nan ∧
    effectiveNum 10 (some "2.5") = .fin ((5 : ℚ) / 2) ∧
    ((5 : ℚ) / 2).den ≠ 1 := by
  refine ⟨by decide, by with_unfolding_all decide, by with_unfolding_all decide⟩

/-- C6 amended: an absent page or limit takes its default; a query value
whose Number coercion is finite becomes max(1, value), which is at least
1 but is not rounded to an integer; a NaN coercion propagates through
Math.max and a positive-infinity coercion stays infinite, while a
negative-infinity coercion is floored to the finite 1; and when both
resolved values are natural numbers the data window of the list query
starts at offset (page - 1) * limit. -/
theorem C6_amended_pagination_coercion :
    ∀ (s : String) (q dflt : ℚ) (pq lq : Option String),
      (effectiveNum dflt none = .fin (max 1 dflt)) ∧
      (jsToNumberFull s = .fin q →
        effectiveNum dflt (some s) = .fin (max 1 q) ∧ 1 ≤ max 1 q) ∧
      (jsToNumberFull s = .nan → effectiveNum dflt (some s) = .nan) ∧
      (jsToNumberFull s = .posInf → effectiveNum dflt (some s) = .posInf) ∧
      (jsToNumberFull s = .negInf → effectiveNum dflt (some s) = .fin 1) ∧
      (∀ (db : DB) (search roleQ : Option String) (cp lp : ℕ),
        resolvePageLimit pq lq = some (cp, lp) →
        1 ≤ cp ∧ 1 ≤ lp ∧
        ∃ rows total, getUsers db search roleQ pq lq =
          some (.ok (window ((cp - 1) * lp) lp rows) (paginationOf cp lp total))) := by
  intro s q dflt pq lq
  refine ⟨rfl, ?_, ?_, ?_, ?_, ?_⟩
  · intro h
    unfold effectiveNum
    dsimp only
    rw [h]
    exact ⟨rfl, le_max_left 1 q⟩
  · intro h
    unfold effectiveNum
    dsimp only
    rw [h]
    rfl
  · intro h
    unfold effectiveNum
    dsimp only
    rw [h]
    rfl
  · intro h
    unfold effectiveNum
    dsimp only
    rw [h]
    rfl
  · intro db search roleQ cp lp hrp
    obtain ⟨h1, h2⟩ := resolvePageLimit_pos hrp
    refine ⟨h1, h2, ?_⟩
    unfold getUsers
    rw [hrp]
    exact ⟨_, _, rfl⟩

/-- Witness for the amended C6 at an integer page string, an integer
limit string, and a limit string coercing to negative infinity, which
Math.max floors to the finite limit 1 so the request is served. -/
theorem C6_amended_pagination_coercion_witness :
    jsToNumberFull "7" = .fin 7 ∧
    effectiveNum 1 (some "7") = .fin 7 ∧
    jsToNumberFull "-Infinity" = .negInf ∧
    effectiveNum 10 (some "-Infinity") = .fin 1 ∧
    resolvePageLimit (some "1") (some "-Infinity") = some (1, 1) ∧
    resolvePageLimit (some "7") (some "3") = some (7, 3) ∧
    (∃ rows total, getUsers dbEmpty none none (some "7") (some "3") =
      some (.ok (window ((7 - 1) * 3) 3 rows) (paginationOf 7 3 total))) := by
  have h7 : jsToNumberFull "7" = .fin (7 : ℚ) := by decide
  have heff := (C6_amended_pagination_coercion "7" 7 1 (some "7") (some "3")).2.1 h7
  have hinf : jsToNumberFull "-Infinity" = .negInf := by decide
  have heffinf := (C6_amended_pagination_coercion "-Infinity" 7 10 (some "7")
    (some "3")).2.2.2.2.1 hinf
  have hrp : resolvePageLimit (some "7") (some "3") = some (7, 3) := by decide
  have hrpinf : resolvePageLimit (some "1") (some "-Infinity") = some (1, 1) := by decide
  have hrest := (C6_amended_pagination_coercion "7" 7 1 (some "7") (some "3")).2.2.2.2.2
    dbEmpty none none 7 3 hrp
  refine ⟨h7, ?_, hinf, heffinf, hrpinf, hrp, hrest.2.2⟩
  rw [heff.1]
  norm_num

/-- C7 counterexample: a finite numeric id that matches no stored row
does not yield 404 on the nested listing GET /subjects/:id/classes; the
route performs no existence check and answers 200 with an empty page. -/
theorem C7_counterexample_nonexistent_id_listing :
    getSubjectClasses dbEmpty "99999" none none = some (.ok [] ⟨1, 10, 0, 0⟩) ∧
    ListResp.ok ([] : List (Class × Option User)) ⟨1, 10, 0, 0⟩ ≠
      ListResp.err 404 "Subject not found" := by
  refine ⟨by decide, by decide⟩

/-- C7 amended: an id that does not coerce to a finite number yields 400
on all five routes; a finite id matching no stored row yields 404 on the
two detail routes GET /subjects/:id and GET /classes/:id; the three
nested listings perform no existence check and never answer 404. -/
theorem C7_amended_id_validation :
    (∀ (db : DB) (idStr : String) (roleQ pq lq : Option String), jsToNumber idStr = none →
      getSubjectById db idStr = .err 400 "Invalid subject id" ∧
      getSubjectClasses db idStr pq lq = some (.err 400 "Invalid subject id") ∧
      getSubjectUsers db idStr roleQ pq lq = some (.err 400 "Invalid subject id") ∧
      getClassById db idStr = .err 400 "Invalid class id" ∧
      getClassUsers db idStr roleQ pq lq = some (.err 400 "Invalid class id")) ∧
    (∀ (db : DB) (idStr : String) (sid : ℚ), jsToNumber idStr = some sid →
      (∀ s ∈ db.subjects, (s.id : ℚ) ≠ sid) →
      getSubjectById db idStr = .err 404 "Subject not found") ∧
    (∀ (db : DB) (idStr : String) (cid : ℚ), jsToNumber idStr = some cid →
      (∀ c ∈ db.classes, (c.id : ℚ) ≠ cid) →
      getClassById db idStr = .err 404 "Class not found") ∧
    (∀ (db : DB) (idStr : String) (roleQ pq lq : Option String) (m : String),
      getSubjectClasses db idStr pq lq ≠ some (.err 404 m) ∧
      getSubjectUsers db idStr roleQ pq lq ≠ some (.err 404 m) ∧
      getClassUsers db idStr roleQ pq lq ≠ some (.err 404 m)) := by
  refine ⟨?_, ?_, ?_, ?_⟩
  · intro db idStr roleQ pq lq h
    refine ⟨?_, ?_, ?_, ?_, ?_⟩
    · unfold getSubjectById
      rw [h]
    · unfold getSubjectClasses
      rw [h]
    · unfold getSubjectUsers
      rw [h]
    · unfold getClassById
      rw [h]
    · unfold getClassUsers
      rw [h]
  · intro db idStr sid hsid hnone
    unfold getSubjectById
    rw [hsid]
    dsimp only
    have hf : (leftJoin db.subjects db.departments
        (fun s d => s.departmentId == d.id)).find?
        (fun x => decide ((x.1.id : ℚ) = sid)) = none := by
      apply List.find?_eq_none.2
      intro x hx
      simp only [decide_eq_true_eq]
      exact hnone x.1 (fst_mem_of_mem_leftJoin hx)
    rw [hf]
  · intro db idStr cid hcid hnone
    unfold getClassById
    rw [hcid]
    dsimp only
    have hf : (leftJoin
        (leftJoin
          (leftJoin db.classes db.subjects (fun c s => s.id == c.subjectId))
          db.departments (fun x d => optTest (fun s => d.id == s.departmentId) x.2))
        db.users (fun x u => u.id == x.1.1.teacherId)).find?
        (fun x => decide ((x.1.1.1.id : ℚ) = cid)) = none := by
      apply List.find?_eq_none.2
      intro x hx
      simp only [decide_eq_true_eq]
      exact hnone x.1.1.1
        (fst_mem_of_mem_leftJoin (fst_mem_of_mem_leftJoin (fst_mem_of_mem_leftJoin hx)))
    rw [hf]
  · intro db idStr roleQ pq lq m
    refine ⟨?_, ?_, ?_⟩
    · intro h
      unfold getSubjectClasses at h
      cases hsid : jsToNumber idStr with
      | none => rw [hsid] at h; exact absurd h (by simp)
      | some sid =>
        rw [hsid] at h
        dsimp only at h
        cases hrp : resolvePageLimit pq lq with
        | none => rw [hrp] at h; exact absurd h (by simp)
        | some pl =>
          obtain ⟨cp, lp⟩ := pl
          rw [hrp] at h
          exact absurd h (by simp)
    · intro h
      unfold getSubjectUsers at h
      cases hsid : jsToNumber idStr with
      | none => rw [hsid] at h; exact absurd h (by simp)
      | some sid =>
        rw [hsid] at h
        dsimp only at h
        by_cases hrt : (!(roleQ == some "teacher") && !(roleQ == some "student")) = true
        · rw [if_pos hrt] at h
          exact absurd h (by simp)
        · rw [if_neg hrt] at h
          cases hrp : resolvePageLimit pq lq with
          | none => rw [hrp] at h; exact absurd h (by simp)
          | some pl =>
            obtain ⟨cp, lp⟩ := pl
            rw [hrp] at h
            exact absurd h (by simp)
    · intro h
      unfold getClassUsers at h
      cases hcid : jsToNumber idStr with
      | none => rw [hcid] at h; exact absurd h (by simp)
      | some cid =>
        rw [hcid] at h
        dsimp only at h
        by_cases hrt : (!(roleQ == some "teacher") && !(roleQ == some "student")) = true
        · rw [if_pos hrt] at h
          exact absurd h (by simp)
        · rw [if_neg hrt] at h
          cases hrp : resolvePageLimit pq lq with
          | none => rw [hrp] at h; exact absurd h (by simp)
          | some pl =>
            obtain ⟨cp, lp⟩ := pl
            rw [hrp] at h
            exact absurd h (by simp)

/-- Witness for the amended C7: a non-numeric id and a nonexistent
numeric id on the empty database. -/
theorem C7_amended_id_validation_witness :
    jsToNumber "abc" = none ∧
    getSubjectById dbEmpty "abc" = .err 400 "Invalid subject id" ∧
    getClassUsers dbEmpty "abc" (some "teacher") none none =
      some (.err 400 "Invalid class id") ∧
    jsToNumber "99999" = some 99999 ∧
    (∀ s ∈ dbEmpty.subjects, (s.id : ℚ) ≠ (99999 : ℚ)) ∧
    (∀ c ∈ dbEmpty.classes, (c.id : ℚ) ≠ (99999 : ℚ)) ∧
    getSubjectById dbEmpty "99999" = .err 404 "Subject not found" ∧
    getClassById dbEmpty "99999" = .err 404 "Class not found" := by
  have h1 : jsToNumber "abc" = none := by decide
  have h2 : jsToNumber "99999" = some (99999 : ℚ) := by decide
  have hs : ∀ s ∈ dbEmpty.subjects, (s.id : ℚ) ≠ (99999 : ℚ) := by
    intro s hs
    exact absurd hs (List.not_mem_nil s)
  have hc : ∀ c ∈ dbEmpty.classes, (c.id : ℚ) ≠ (99999 : ℚ) := by
    intro c hc
    exact absurd hc (List.not_mem_nil c)
  have hall := C7_amended_id_validation.1 dbEmpty "abc" (some "teacher") none none h1
  exact ⟨h1, hall.1, hall.2.2.2.2, h2, hs, hc,
    C7_amended_id_validation.2.1 dbEmpty "99999" 99999 h2 hs,
    C7_amended_id_validation.2.2.1 dbEmpty "99999" 99999 h2 hc⟩

end Classroom
